import Mathlib

/-!
Verification of the interactive terminal todo client (pali-org/terminal).

This file shallowly embeds the TUI core from src/tui/app.rs and
src/tui/components.rs: the Todo record, the input form, the filter engine,
the selection tracker, the screen/mode state machine and the action
coordinator.  Remote-service calls are modelled by passing the call's
result (an Except value) into the operation; the local timezone formatter
used when pre-populating the edit form is passed as a function parameter.
Strings are Lean strings; Rust to_lowercase is modelled by the ASCII
Char.toLower map; machine integers (i32/i64 priorities and timestamps) are
modelled as Int, which is faithful here because no arithmetic in the
embedded code can overflow.
-/

/-- Decidable equality for Except results, used to evaluate remote
operation outcomes on concrete inputs. -/
instance instDecEqExcept {e a : Type} [DecidableEq e] [DecidableEq a] :
    DecidableEq (Except e a) := fun x y =>
  match x, y with
  | Except.ok v, Except.ok w =>
      if h : v = w then isTrue (by rw [h]) else
        isFalse fun hc => h (Except.ok.inj hc)
  | Except.error v, Except.error w =>
      if h : v = w then isTrue (by rw [h]) else
        isFalse fun hc => h (Except.error.inj hc)
  | Except.ok _, Except.error _ => isFalse fun hc => Except.noConfusion hc
  | Except.error _, Except.ok _ => isFalse fun hc => Except.noConfusion hc

/-- A todo record as in pali_types::Todo (fields used by the TUI core). -/
structure Todo where
  id : String
  title : String
  description : Option String
  completed : Bool
  priority : Int
  due_date : Option Int
  created_at : Int
  updated_at : Int
deriving DecidableEq, Repr

/-- The screens of the TUI (enum AppScreen in src/tui/app.rs). -/
inductive AppScreen where
  | TodoList
  | AddTodo
  | EditTodo
  | Help
  | Settings
  | Search
  | TodoDetail
deriving DecidableEq, Repr

/-- Input modes (enum InputMode in src/tui/app.rs). -/
inductive InputMode where
  | Normal
  | Editing
deriving DecidableEq, Repr

/-- The form fields (enum InputField in src/tui/components.rs). -/
inductive InputField where
  | Title
  | Description
  | Priority
  | DueDate
deriving DecidableEq, Repr

/-- Key codes delivered to the application; the constructors cover every
key the state machine matches on, and null stands for any other key
(which every match arm maps to a no-op). -/
inductive KeyCode where
  | char (c : Char)
  | esc
  | enter
  | tab
  | backTab
  | up
  | down
  | backspace
  | null
deriving DecidableEq, Repr

/-- Substring test on character lists: true when the second list occurs
contiguously inside the first (models str::contains). -/
def listContainsSub : List Char → List Char → Bool
  | _, [] => true
  | [], _ :: _ => false
  | c :: rest, sub =>
      (decide (sub = (c :: rest).take sub.length)) || listContainsSub rest sub

/-- Models Rust char::is_whitespace: the Unicode White_Space property
(the code points with that property as of Unicode 15). -/
def rustIsWhitespace (c : Char) : Bool :=
  let n := c.toNat
  n = 9 || n = 10 || n = 11 || n = 12 || n = 13 || n = 32 || n = 133 ||
  n = 160 || n = 5760 || (8192 ≤ n && n ≤ 8202) || n = 8232 || n = 8233 ||
  n = 8239 || n = 8287 || n = 12288

/-- Models str::trim: strip leading and trailing whitespace. -/
def strTrim (s : String) : String :=
  String.mk (((s.data.dropWhile rustIsWhitespace).reverse.dropWhile
    rustIsWhitespace).reverse)

/-- Models String::is_empty. -/
def strIsEmpty (s : String) : Bool := s.data.isEmpty

/-- Models String::pop: drop the last character. -/
def strPop (s : String) : String := String.mk s.data.dropLast

/-- Case-insensitive substring test, modelling
haystack.to_lowercase().contains(&needle.to_lowercase()) with the ASCII
case map. -/
def strContainsCI (hay needle : String) : Bool :=
  listContainsSub (hay.data.map Char.toLower) (needle.data.map Char.toLower)

/-- Gregorian leap-year test on proleptic years, as used by chrono's
calendar (divisibility is sign-independent). -/
def isLeapYear (y : Int) : Bool :=
  y % 4 == 0 && (y % 100 != 0 || y % 400 == 0)

/-- Number of days in a month of a given year (chrono calendar rules). -/
def daysInMonth (y : Int) (m : Nat) : Nat :=
  if m = 1 ∨ m = 3 ∨ m = 5 ∨ m = 7 ∨ m = 8 ∨ m = 10 ∨ m = 12 then 31
  else if m = 4 ∨ m = 6 ∨ m = 9 ∨ m = 11 then 30
  else if m = 2 then (if isLeapYear y then 29 else 28)
  else 0

/-- Days since 1970-01-01 of a proleptic-Gregorian civil date: the
days-from-civil algorithm used by chrono internally, with the era
computed by floor division (the C source emulates floor division with an
offset; the value is the same). -/
def daysFromCivil (y : Int) (m d : Nat) : Int :=
  let yAdj : Int := if m ≤ 2 then y - 1 else y
  let era : Int := Int.fdiv yAdj 400
  let yoe : Int := yAdj - era * 400
  let mp : Int := ((m : Int) + 9) % 12
  let doy : Int := (153 * mp + 2) / 5 + (d : Int) - 1
  let doe : Int := yoe * 365 + yoe / 4 - yoe / 100 + doy
  era * 146097 + doe - 719468

/-- Unix timestamp (seconds) of a civil date-time interpreted as UTC: the
value of NaiveDateTime::and_utc().timestamp() for the parsed fields. -/
def civilTimestamp (y : Int) (mo d h mi s : Nat) : Int :=
  daysFromCivil y mo d * 86400 + ((h * 3600 + mi * 60 + s : Nat) : Int)

/-- Numeric value of an ASCII digit character. -/
def digitVal (c : Char) : Nat := c.toNat - 48

/-- Skip leading whitespace: chrono's parser trims whitespace before
every numeric field and for a whitespace item in the format string. -/
def skipSpaces (cs : List Char) : List Char := cs.dropWhile rustIsWhitespace

/-- chrono scan::number with no effective width limit (used after an
explicit sign): read all leading ASCII digits, at least one. -/
def scanAll (cs : List Char) : Option (Nat × List Char) :=
  let digs := cs.takeWhile Char.isDigit
  if digs.isEmpty then none
  else
    some (digs.foldl (fun acc c => acc * 10 + digitVal c) 0,
      cs.drop digs.length)

/-- chrono scan::number with maximum width 2: read one or two leading
ASCII digits (unpadded single digits are accepted). -/
def scan2 : List Char → Option (Nat × List Char)
  | [] => none
  | [c1] => if c1.isDigit then some (digitVal c1, []) else none
  | c1 :: c2 :: rest =>
      if c1.isDigit then
        if c2.isDigit then some (digitVal c1 * 10 + digitVal c2, rest)
        else some (digitVal c1, c2 :: rest)
      else none

/-- chrono scan::number with maximum width 4: read one to four leading
ASCII digits (used for an unsigned year field). -/
def scan4 : List Char → Option (Nat × List Char)
  | [] => none
  | [c1] => if c1.isDigit then some (digitVal c1, []) else none
  | [c1, c2] =>
      if c1.isDigit then
        if c2.isDigit then some (digitVal c1 * 10 + digitVal c2, [])
        else some (digitVal c1, [c2])
      else none
  | [c1, c2, c3] =>
      if c1.isDigit then
        if c2.isDigit then
          if c3.isDigit then
            some ((digitVal c1 * 10 + digitVal c2) * 10 + digitVal c3, [])
          else some (digitVal c1 * 10 + digitVal c2, [c3])
        else some (digitVal c1, [c2, c3])
      else none
  | c1 :: c2 :: c3 :: c4 :: rest =>
      if c1.isDigit then
        if c2.isDigit then
          if c3.isDigit then
            if c4.isDigit then
              some (((digitVal c1 * 10 + digitVal c2) * 10 + digitVal c3)
                * 10 + digitVal c4, rest)
            else
              some ((digitVal c1 * 10 + digitVal c2) * 10 + digitVal c3,
                c4 :: rest)
          else some (digitVal c1 * 10 + digitVal c2, c3 :: c4 :: rest)
        else some (digitVal c1, c2 :: c3 :: c4 :: rest)
      else none

/-- A chrono unsigned two-digit numeric field: leading whitespace
skipped, then one or two digits. -/
def parseNum2 (cs : List Char) : Option (Nat × List Char) :=
  scan2 (skipSpaces cs)

/-- The chrono %Y year field: leading whitespace skipped; an explicit -
or + sign is followed by any number of digits, an unsigned year by one
to four digits. -/
def parseYearField (cs : List Char) : Option (Int × List Char) :=
  match skipSpaces cs with
  | [] => none
  | c :: rest =>
      if c = '-' then
        match scanAll rest with
        | some (n, r) => some (-(n : Int), r)
        | none => none
      else if c = '+' then
        match scanAll rest with
        | some (n, r) => some ((n : Int), r)
        | none => none
      else
        match scan4 (c :: rest) with
        | some (n, r) => some ((n : Int), r)
        | none => none

/-- Consume one expected literal character (chrono literal items match
exactly, with no whitespace skipping). -/
def expectChar (c : Char) : List Char → Option (List Char)
  | [] => none
  | x :: rest => if x = c then some rest else none

/-- Models chrono NaiveDateTime::parse_from_str with the format string
%Y-%m-%d %H:%M:%S followed by and_utc().timestamp(): numeric fields skip
leading whitespace and accept unpadded one-digit values, the year
additionally accepts an explicit sign (with unlimited digits) and is
limited to NaiveDate's year range, the space item matches any amount of
whitespace including none, the whole input must be consumed, and the
calendar fields must be valid; the parsed naive value is interpreted as
UTC (leap seconds are not modelled). -/
def parseDateTimeUTC (cs : List Char) : Option Int := do
  let (y, r1) ← parseYearField cs
  let r2 ← expectChar '-' r1
  let (mo, r3) ← parseNum2 r2
  let r4 ← expectChar '-' r3
  let (d, r5) ← parseNum2 r4
  let r6 := skipSpaces r5
  let (h, r7) ← parseNum2 r6
  let r8 ← expectChar ':' r7
  let (mi, r9) ← parseNum2 r8
  let r10 ← expectChar ':' r9
  let (s, r11) ← parseNum2 r10
  if r11 = [] ∧ -262144 ≤ y ∧ y ≤ 262143 ∧ 1 ≤ mo ∧ mo ≤ 12 ∧ 1 ≤ d ∧
      d ≤ daysInMonth y mo ∧ h ≤ 23 ∧ mi ≤ 59 ∧ s ≤ 59 then
    some (civilTimestamp y mo d h mi s)
  else
    none

/-- The input form (struct InputForm in src/tui/components.rs). -/
structure InputForm where
  title : String
  description : String
  priority : Int
  due_date : String
  current_field : InputField
deriving DecidableEq, Repr

namespace InputForm

/-- InputForm::new — empty fields, medium priority, cursor on title. -/
def new : InputForm :=
  { title := ""
    description := ""
    priority := 2
    due_date := ""
    current_field := InputField.Title }

/-- InputForm::next_field — cycle the cursor forward. -/
def next_field (f : InputForm) : InputForm :=
  { f with current_field :=
      match f.current_field with
      | InputField.Title => InputField.Description
      | InputField.Description => InputField.Priority
      | InputField.Priority => InputField.DueDate
      | InputField.DueDate => InputField.Title }

/-- InputForm::previous_field — cycle the cursor backward. -/
def previous_field (f : InputForm) : InputForm :=
  { f with current_field :=
      match f.current_field with
      | InputField.Title => InputField.DueDate
      | InputField.Description => InputField.Title
      | InputField.Priority => InputField.Description
      | InputField.DueDate => InputField.Priority }

/-- Models char::to_digit(10): the value of an ASCII decimal digit. -/
def charToDigit (c : Char) : Option Nat :=
  if c.isDigit then some (digitVal c) else none

/-- InputForm::handle_char — route one character to the current field.
On the priority field only digits 1..=3 are accepted and set the value
directly; on the due-date field only digits, dash, colon and space are
appended. -/
def handle_char (f : InputForm) (c : Char) : InputForm :=
  match f.current_field with
  | InputField.Title => { f with title := f.title.push c }
  | InputField.Description => { f with description := f.description.push c }
  | InputField.Priority =>
      match charToDigit c with
      | some digit =>
          if 1 ≤ digit ∧ digit ≤ 3 then { f with priority := (digit : Int) }
          else f
      | none => f
  | InputField.DueDate =>
      if c.isDigit || c = '-' || c = ':' || c = ' ' then
        { f with due_date := f.due_date.push c }
      else f

/-- InputForm::handle_backspace — drop the last character of the current
field; the priority field does not support backspace. -/
def handle_backspace (f : InputForm) : InputForm :=
  match f.current_field with
  | InputField.Title => { f with title := strPop f.title }
  | InputField.Description => { f with description := strPop f.description }
  | InputField.Priority => f
  | InputField.DueDate => { f with due_date := strPop f.due_date }

/-- InputForm::clear — reset every field to its default. -/
def clear (f : InputForm) : InputForm :=
  { f with
    title := ""
    description := ""
    priority := 2
    due_date := ""
    current_field := InputField.Title }

/-- InputForm::is_valid — the trimmed title is non-empty. -/
def is_valid (f : InputForm) : Bool :=
  !(strIsEmpty (strTrim f.title))

/-- InputForm::parse_due_date — empty (after trim) means no due date;
otherwise try the full %Y-%m-%d %H:%M:%S format, then the date-only form
with " 00:00:00" appended, else report an invalid-format error. -/
def parse_due_date (f : InputForm) : Except String (Option Int) :=
  if strIsEmpty (strTrim f.due_date) then Except.ok none
  else
    let ds := (strTrim f.due_date).data
    match parseDateTimeUTC ds with
    | some ts => Except.ok (some ts)
    | none =>
        match parseDateTimeUTC (ds ++ (" 00:00:00").toList) with
        | some ts => Except.ok (some ts)
        | none =>
            Except.error ("Invalid date format. Use YYYY-MM-DD or YYYY-MM-DD HH:MM:SS")

end InputForm

/-- A create request as assembled by InputForm::to_create_request
(pali_types::CreateTodoRequest builder chain). -/
structure CreateTodoRequest where
  title : String
  description : Option String
  priority : Option Int
  due_date : Option Int
deriving DecidableEq, Repr

/-- InputForm::to_create_request — trimmed title, optional trimmed
description, parsed due date (propagating its error), and the priority. -/
def InputForm.to_create_request (f : InputForm) : Except String CreateTodoRequest :=
  match f.parse_due_date with
  | Except.error e => Except.error e
  | Except.ok due =>
      Except.ok
        { title := strTrim f.title
          description :=
            if strIsEmpty (strTrim f.description) then none
            else some (strTrim f.description)
          priority := some f.priority
          due_date := due }

/-- The application state (struct App in src/tui/app.rs).  The ratatui
ListState collaborator is modelled by its observable selected index; the
api_client and config collaborators carry no state the core reads, so they
are omitted and every remote call result is passed into the operation. -/
structure App where
  should_quit : Bool
  current_screen : AppScreen
  input_mode : InputMode
  todos : List Todo
  selected_todo : Option Nat
  list_state : Option Nat
  input_buffer : String
  input_form : InputForm
  loading : Bool
  error_message : Option String
  success_message : Option String
  search_query : String
  show_all_todos : Bool
  filter_priority : Option Int
  filter_tag : Option String
  filtered_todos : List Todo
deriving DecidableEq, Repr

/-- The results the remote todo-service collaborator returns for the six
operations a single key event can trigger, plus the local-timezone
due-date formatter used when pre-populating the edit form (it stands for
DateTime::from_timestamp followed by a chrono::Local format call). -/
structure Remote where
  list_result : Except Unit (List Todo)
  search_result : Except Unit (List Todo)
  toggle_result : Except Unit Todo
  delete_result : Except Unit Unit
  update_result : Except Unit Todo
  create_result : Except Unit Todo
  edit_fmt : Int → Option String

namespace App

/-- App::quit. -/
def quit (a : App) : App := { a with should_quit := true }

/-- App::clear_messages. -/
def clear_messages (a : App) : App :=
  { a with
    error_message := none
    success_message := none }

/-- App::show_error — set the error message and drop any success one. -/
def show_error (a : App) (message : String) : App :=
  { a with
    error_message := some message
    success_message := none }

/-- App::show_success — set the success message and drop any error one. -/
def show_success (a : App) (message : String) : App :=
  { a with
    success_message := some message
    error_message := none }

/-- The per-item predicate of App::apply_filters: completion filter, then
case-insensitive search over title and description, then the priority
filter (the tag filter is a placeholder and filters nothing). -/
def matches_filters (a : App) (t : Todo) : Bool :=
  if !a.show_all_todos && t.completed then
    false
  else if !(strIsEmpty a.search_query) &&
      !(strContainsCI t.title a.search_query ||
        (match t.description with
         | some d => strContainsCI d a.search_query
         | none => false)) then
    false
  else
    match a.filter_priority with
    | some p => t.priority == p
    | none => true

/-- App::apply_filters — recompute filtered_todos from the collection and
reset the selection: none when the filtered view is empty, index 0
otherwise (list_state mirrors the selection). -/
def apply_filters (a : App) : App :=
  let filtered := a.todos.filter (fun t => a.matches_filters t)
  let sel : Option Nat := if filtered.isEmpty then none else some 0
  { a with
    filtered_todos := filtered
    selected_todo := sel
    list_state := sel }

/-- App::start_search — open the search screen in editing mode with a
cleared query. -/
def start_search (a : App) : App :=
  (clear_messages
    { a with
      current_screen := AppScreen.Search
      input_mode := InputMode.Editing
      search_query := "" })

/-- App::execute_search with the remote search result: an empty trimmed
query just returns to the list and re-filters; otherwise on success the
collection is replaced and re-filtered and the screen returns to the
list, on failure an error message is shown; loading ends false. -/
def execute_search (r : Except Unit (List Todo)) (a : App) : App :=
  if strIsEmpty (strTrim a.search_query) then
    apply_filters
      { a with
        current_screen := AppScreen.TodoList
        input_mode := InputMode.Normal }
  else
    let a1 := clear_messages { a with loading := true }
    let a2 :=
      match r with
      | Except.ok todos =>
          let b := apply_filters { a1 with todos := todos }
          let c :=
            { b with
              current_screen := AppScreen.TodoList
              input_mode := InputMode.Normal }
          show_success c
            ("Found " ++ toString c.filtered_todos.length ++ " results for " ++
              String.mk [Char.ofNat 39] ++ c.search_query ++
              String.mk [Char.ofNat 39])
      | Except.error _ => show_error a1 ("Search failed. Please try again.")
    { a2 with loading := false }

/-- App::toggle_show_all — flip the completion filter, re-filter, report. -/
def toggle_show_all (a : App) : App :=
  let b := apply_filters { a with show_all_todos := !a.show_all_todos }
  let status := if b.show_all_todos then "all todos" else "pending todos"
  show_success b ("Now showing " ++ status)

/-- App::set_priority_filter — set or clear the priority filter,
re-filter, report. -/
def set_priority_filter (priority : Option Int) (a : App) : App :=
  let b := apply_filters { a with filter_priority := priority }
  let msg :=
    match priority with
    | some 1 => "Filtering by low priority"
    | some 2 => "Filtering by medium priority"
    | some 3 => "Filtering by high priority"
    | none => "Priority filter cleared"
    | _ => "Invalid priority"
  show_success b msg

/-- App::show_todo_detail — open the detail screen when something is
selected. -/
def show_todo_detail (a : App) : App :=
  if a.selected_todo.isSome then
    { a with current_screen := AppScreen.TodoDetail }
  else a

/-- App::next_todo — advance the selection circularly over the filtered
view; no-op when the view is empty. -/
def next_todo (a : App) : App :=
  if a.filtered_todos.isEmpty then a
  else
    let i :=
      match a.selected_todo with
      | some i => if i ≥ a.filtered_todos.length - 1 then 0 else i + 1
      | none => 0
    { a with
      selected_todo := some i
      list_state := some i }

/-- App::previous_todo — move the selection back circularly over the
filtered view; no-op when the view is empty. -/
def previous_todo (a : App) : App :=
  if a.filtered_todos.isEmpty then a
  else
    let i :=
      match a.selected_todo with
      | some i => if i = 0 then a.filtered_todos.length - 1 else i - 1
      | none => 0
    { a with
      selected_todo := some i
      list_state := some i }

/-- App::load_todos with the remote list result: on success replace the
collection, re-filter, clamp the selection and report; on failure show an
error and leave local state alone; loading ends false. -/
def load_todos (r : Except Unit (List Todo)) (a : App) : App :=
  let a1 := clear_messages { a with loading := true }
  let a2 :=
    match r with
    | Except.ok todos =>
        let b := apply_filters { a1 with todos := todos }
        let c :=
          match b.selected_todo with
          | some selected_index =>
              if selected_index ≥ b.filtered_todos.length then
                let new_selection : Option Nat :=
                  if b.filtered_todos.isEmpty then none else some 0
                { b with
                  selected_todo := new_selection
                  list_state := new_selection }
              else b
          | none =>
              if !b.filtered_todos.isEmpty then
                { b with
                  selected_todo := some 0
                  list_state := some 0 }
              else b
        show_success c
          ("Loaded " ++ toString c.todos.length ++ " todo(s), showing " ++
            toString c.filtered_todos.length)
    | Except.error _ =>
        show_error a1
          ("Unable to load todos. Please check your connection and try again.")
  { a2 with loading := false }

/-- App::toggle_selected_todo with the remote toggle result: acts only on
a valid selection; on success the returned todo replaces the matching
entry (by id) of the full collection and the selected entry of the
filtered view in place; on failure an error is shown and no list changes;
loading ends false. -/
def toggle_selected_todo (r : Except Unit Todo) (a : App) : App :=
  match a.selected_todo with
  | none => a
  | some index =>
      match a.filtered_todos[index]? with
      | none => a
      | some todo =>
          let todo_id := todo.id
          let a1 := clear_messages { a with loading := true }
          let a2 :=
            match r with
            | Except.ok updated_todo =>
                let new_todos :=
                  match a1.todos.findIdx? (fun (t : Todo) => t.id == todo_id) with
                  | some main_index => a1.todos.set main_index updated_todo
                  | none => a1.todos
                show_success
                  { a1 with
                    todos := new_todos
                    filtered_todos := a1.filtered_todos.set index updated_todo }
                  ("Todo toggled successfully")
            | Except.error _ =>
                show_error a1 ("Unable to update todo status. Please try again.")
          { a2 with loading := false }

/-- App::delete_selected_todo with the remote delete result: acts only on
a valid selection; on success the todo is removed by id from the full
collection and by index from the filtered view, and the selection is
clamped (none when empty, last index when out of bounds, else kept); on
failure an error is shown and no list changes; loading ends false. -/
def delete_selected_todo (r : Except Unit Unit) (a : App) : App :=
  match a.selected_todo with
  | none => a
  | some index =>
      match a.filtered_todos[index]? with
      | none => a
      | some todo =>
          let todo_id := todo.id
          let todo_title := todo.title
          let a1 := clear_messages { a with loading := true }
          let a2 :=
            match r with
            | Except.ok _ =>
                let new_todos := a1.todos.filter (fun (t : Todo) => !(t.id == todo_id))
                let new_filtered := a1.filtered_todos.eraseIdx index
                let b :=
                  { a1 with
                    todos := new_todos
                    filtered_todos := new_filtered }
                let c :=
                  if b.filtered_todos.isEmpty then
                    { b with
                      selected_todo := none
                      list_state := none }
                  else if index ≥ b.filtered_todos.length then
                    let new_index := b.filtered_todos.length - 1
                    { b with
                      selected_todo := some new_index
                      list_state := some new_index }
                  else b
                show_success c ("Deleted: " ++ todo_title)
            | Except.error _ =>
                show_error a1 ("Unable to delete todo. Please try again.")
          { a2 with loading := false }

/-- App::start_edit_selected_todo — acts only on a valid selection:
pre-populate the form from the selected todo (the due date rendered by
the local-time formatter, empty when absent or unrepresentable), switch
to the edit screen in editing mode and clear messages. -/
def start_edit_selected_todo (fmt : Int → Option String) (a : App) : App :=
  match a.selected_todo with
  | none => a
  | some index =>
      match a.filtered_todos[index]? with
      | none => a
      | some todo =>
          let form :=
            { a.input_form with
              title := todo.title
              description := todo.description.getD ""
              priority := todo.priority
              due_date :=
                match todo.due_date with
                | some due_ts => (fmt due_ts).getD ""
                | none => "" }
          clear_messages
            { a with
              input_form := form
              current_screen := AppScreen.EditTodo
              input_mode := InputMode.Editing }

/-- App::update_selected_todo with the remote update result: an invalid
form is reported immediately; otherwise, on a valid selection, a
malformed due date is reported without dispatching; otherwise on success
the returned todo replaces the matching entry of the full collection and
the selected entry of the filtered view in place, the form is cleared and
the screen returns to the list; on failure an error is shown and no list
changes; loading ends false whenever the remote was consulted. -/
def update_selected_todo (r : Except Unit Todo) (a : App) : App :=
  if !a.input_form.is_valid then
    show_error a ("Please enter a title for your todo")
  else
    match a.selected_todo with
    | none => a
    | some index =>
        match a.filtered_todos[index]? with
        | none => a
        | some todo =>
            let todo_id := todo.id
            let a1 := clear_messages { a with loading := true }
            match a1.input_form.parse_due_date with
            | Except.error err => show_error { a1 with loading := false } err
            | Except.ok _due =>
                let a2 :=
                  match r with
                  | Except.ok updated_todo =>
                      let new_todos :=
                        match a1.todos.findIdx? (fun (t : Todo) => t.id == todo_id) with
                        | some main_index => a1.todos.set main_index updated_todo
                        | none => a1.todos
                      show_success
                        { a1 with
                          todos := new_todos
                          filtered_todos := a1.filtered_todos.set index updated_todo
                          input_form := a1.input_form.clear
                          current_screen := AppScreen.TodoList
                          input_mode := InputMode.Normal }
                        ("Updated: " ++ updated_todo.title)
                  | Except.error _ =>
                      show_error a1 ("Unable to update todo. Please try again.")
                { a2 with loading := false }

/-- App::create_todo with the remote create result: an invalid form is
reported immediately; a malformed due date is reported without
dispatching; otherwise on success the returned todo is appended, the
filters re-applied, the new todo selected where it appears in the
filtered view, the form cleared and the screen returns to the list; on
failure an error is shown and no list changes; loading ends false
whenever the request was built. -/
def create_todo (r : Except Unit Todo) (a : App) : App :=
  if !a.input_form.is_valid then
    show_error a ("Please enter a title for your todo")
  else
    let a1 := clear_messages { a with loading := true }
    match a1.input_form.to_create_request with
    | Except.error err => show_error { a1 with loading := false } err
    | Except.ok _request =>
        let a2 :=
          match r with
          | Except.ok todo =>
              let b := apply_filters { a1 with todos := a1.todos ++ [todo] }
              let c :=
                match b.filtered_todos.findIdx? (fun (t : Todo) => t.id == todo.id) with
                | some new_index =>
                    { b with
                      selected_todo := some new_index
                      list_state := some new_index }
                | none => b
              show_success
                { c with
                  input_form := c.input_form.clear
                  current_screen := AppScreen.TodoList
                  input_mode := InputMode.Normal }
                ("Created: " ++ todo.title)
          | Except.error _ =>
              show_error a1 ("Unable to create todo. Please try again.")
        { a2 with loading := false }

/-- The inline handler of keys n and a on the todo list: open the Add
screen in editing mode over a cleared form. -/
def open_add_todo (a : App) : App :=
  { a with
    current_screen := AppScreen.AddTodo
    input_mode := InputMode.Editing
    input_form := a.input_form.clear }

/-- The inline handler of keys h and ? on the todo list: open Help. -/
def open_help (a : App) : App :=
  { a with current_screen := AppScreen.Help }

/-- The inline handler of key s on the todo list: open Settings. -/
def open_settings (a : App) : App :=
  { a with current_screen := AppScreen.Settings }

/-- The inline handler of Escape and q on the Help, Settings and detail
screens: return to the todo list. -/
def back_to_list (a : App) : App :=
  { a with current_screen := AppScreen.TodoList }

/-- The inline handler of Escape on the Add, Edit and Search screens in
Normal mode: discard the draft and the query and return to the list. -/
def cancel_to_list (a : App) : App :=
  { a with
    current_screen := AppScreen.TodoList
    input_mode := InputMode.Normal
    input_form := a.input_form.clear
    search_query := "" }

/-- App::handle_normal_key — the Normal-mode key table, by screen. -/
def handle_normal_key (a : App) (key : KeyCode) (r : Remote) : App :=
  match a.current_screen with
  | AppScreen.TodoList =>
      match key with
      | KeyCode.char c =>
          if c = 'q' then quit a
          else if c = 'r' then load_todos r.list_result a
          else if c = 'n' ∨ c = 'a' then open_add_todo a
          else if c = 'e' then start_edit_selected_todo r.edit_fmt a
          else if c = 'h' ∨ c = '?' then open_help a
          else if c = 's' then open_settings a
          else if c = '/' then start_search a
          else if c = 'f' then toggle_show_all a
          else if c = '1' then set_priority_filter (some 1) a
          else if c = '2' then set_priority_filter (some 2) a
          else if c = '3' then set_priority_filter (some 3) a
          else if c = '0' then set_priority_filter none a
          else if c = 'v' then show_todo_detail a
          else if c = 'k' then previous_todo a
          else if c = 'j' then next_todo a
          else if c = ' ' then toggle_selected_todo r.toggle_result a
          else if c = 'd' then delete_selected_todo r.delete_result a
          else a
      | KeyCode.esc => quit a
      | KeyCode.up => previous_todo a
      | KeyCode.down => next_todo a
      | KeyCode.enter => toggle_selected_todo r.toggle_result a
      | _ => a
  | AppScreen.Help | AppScreen.Settings | AppScreen.TodoDetail =>
      match key with
      | KeyCode.esc => back_to_list a
      | KeyCode.char c => if c = 'q' then back_to_list a else a
      | _ => a
  | AppScreen.AddTodo | AppScreen.EditTodo | AppScreen.Search =>
      if key = KeyCode.esc then cancel_to_list a else a

/-- App::handle_editing_key — the Editing-mode key table: Escape discards
the draft, Enter commits per screen, Tab/Shift-Tab cycle form fields,
characters and backspace route to the search query on the search screen
and to the form elsewhere. -/
def handle_editing_key (a : App) (key : KeyCode) (r : Remote) : App :=
  match key with
  | KeyCode.esc =>
      { a with
        current_screen := AppScreen.TodoList
        input_mode := InputMode.Normal
        input_form := a.input_form.clear }
  | KeyCode.enter =>
      match a.current_screen with
      | AppScreen.AddTodo => create_todo r.create_result a
      | AppScreen.EditTodo => update_selected_todo r.update_result a
      | AppScreen.Search => execute_search r.search_result a
      | _ => a
  | KeyCode.tab => { a with input_form := a.input_form.next_field }
  | KeyCode.backTab => { a with input_form := a.input_form.previous_field }
  | KeyCode.char c =>
      if a.current_screen = AppScreen.Search then
        { a with search_query := a.search_query.push c }
      else
        { a with input_form := a.input_form.handle_char c }
  | KeyCode.backspace =>
      if a.current_screen = AppScreen.Search then
        { a with search_query := strPop a.search_query }
      else
        { a with input_form := a.input_form.handle_backspace }
  | _ => a

/-- App::handle_key — clear both status messages, then route the key by
input mode. -/
def handle_key (key : KeyCode) (r : Remote) (a : App) : App :=
  let a := clear_messages a
  match a.input_mode with
  | InputMode.Normal => handle_normal_key a key r
  | InputMode.Editing => handle_editing_key a key r

end App

/-- The state App::new builds (collaborator loading elided) followed by
its initial apply_filters call. -/
def init_app : App :=
  App.apply_filters
    { should_quit := false
      current_screen := AppScreen.TodoList
      input_mode := InputMode.Normal
      todos := []
      selected_todo := none
      list_state := none
      input_buffer := ""
      input_form := InputForm.new
      loading := false
      error_message := none
      success_message := none
      search_query := ""
      show_all_todos := false
      filter_priority := none
      filter_tag := none
      filtered_todos := [] }

/-- States reachable from the initial application state by key handling
and by the coordinator and navigation operations the key tables invoke,
with arbitrary remote results at every step. -/
inductive Reachable : App → Prop
  | init : Reachable init_app
  | key (k : KeyCode) (r : Remote) {a : App} :
      Reachable a → Reachable (App.handle_key k r a)
  | load (r : Except Unit (List Todo)) {a : App} :
      Reachable a → Reachable (App.load_todos r a)
  | search_exec (r : Except Unit (List Todo)) {a : App} :
      Reachable a → Reachable (App.execute_search r a)
  | toggle (r : Except Unit Todo) {a : App} :
      Reachable a → Reachable (App.toggle_selected_todo r a)
  | delete (r : Except Unit Unit) {a : App} :
      Reachable a → Reachable (App.delete_selected_todo r a)
  | update (r : Except Unit Todo) {a : App} :
      Reachable a → Reachable (App.update_selected_todo r a)
  | create (r : Except Unit Todo) {a : App} :
      Reachable a → Reachable (App.create_todo r a)
  | search_start {a : App} : Reachable a → Reachable (App.start_search a)
  | show_all {a : App} : Reachable a → Reachable (App.toggle_show_all a)
  | prio (p : Option Int) {a : App} :
      Reachable a → Reachable (App.set_priority_filter p a)
  | nav_next {a : App} : Reachable a → Reachable (App.next_todo a)
  | nav_prev {a : App} : Reachable a → Reachable (App.previous_todo a)
  | detail {a : App} : Reachable a → Reachable (App.show_todo_detail a)
  | edit_start (fmt : Int → Option String) {a : App} :
      Reachable a → Reachable (App.start_edit_selected_todo fmt a)

/-- findIdx? with start accumulator s finds indices below s plus the
length of the list. -/
theorem findIdx?_some_lt {α : Type} (p : α → Bool) :
    ∀ (l : List α) (s i : Nat), List.findIdx? p l s = some i → i < s + l.length := by
  intro l
  induction l with
  | nil => intro s i h; simp [List.findIdx?] at h
  | cons x xs ih =>
    intro s i h
    rw [List.findIdx?_cons] at h
    by_cases hp : p x = true
    · rw [if_pos hp] at h
      have : s = i := Option.some.inj h
      simp [List.length_cons]
      omega
    · rw [if_neg hp] at h
      have := ih (s + 1) i h
      simp [List.length_cons]
      omega

/-- An index found by findIdx? is a valid index of the list. -/
theorem findIdx?_lt_length {α : Type} (p : α → Bool) (l : List α) (i : Nat)
    (h : l.findIdx? p = some i) : i < l.length := by
  have := findIdx?_some_lt p l 0 i h
  omega

/-- The selection invariant: no selection exactly when the filtered view
is empty, and any selected index is in bounds of the filtered view. -/
def sel_ok (a : App) : Prop :=
  (a.selected_todo = none ↔ a.filtered_todos = []) ∧
  ∀ i, a.selected_todo = some i → i < a.filtered_todos.length

/-- The status-message invariant: error and success messages are never
set simultaneously. -/
def msg_ok (a : App) : Prop :=
  a.error_message = none ∨ a.success_message = none

theorem sel_ok_of_eq {a b : App} (h : sel_ok a)
    (hs : b.selected_todo = a.selected_todo)
    (hf : b.filtered_todos = a.filtered_todos) : sel_ok b := by
  unfold sel_ok at h ⊢
  rw [hs, hf]
  exact h

theorem sel_ok_apply_filters (a : App) : sel_ok (App.apply_filters a) := by
  unfold sel_ok
  by_cases h : (a.todos.filter (fun t => a.matches_filters t)).isEmpty
  · have h2 : a.todos.filter (fun t => a.matches_filters t) = [] :=
      List.isEmpty_iff.mp h
    simp [App.apply_filters, h, h2]
  · have h2 : a.todos.filter (fun t => a.matches_filters t) ≠ [] := by
      simpa [List.isEmpty_iff] using h
    have h3 := List.length_pos.mpr h2
    simp [App.apply_filters, h, h2]
    all_goals omega

theorem sel_ok_clear_messages {a : App} (h : sel_ok a) :
    sel_ok (App.clear_messages a) :=
  sel_ok_of_eq h rfl rfl

theorem sel_ok_show_error {a : App} (m : String) (h : sel_ok a) :
    sel_ok (App.show_error a m) :=
  sel_ok_of_eq h rfl rfl

theorem sel_ok_show_success {a : App} (m : String) (h : sel_ok a) :
    sel_ok (App.show_success a m) :=
  sel_ok_of_eq h rfl rfl

theorem sel_ok_quit {a : App} (h : sel_ok a) : sel_ok (App.quit a) :=
  sel_ok_of_eq h rfl rfl

theorem sel_ok_start_search {a : App} (h : sel_ok a) :
    sel_ok (App.start_search a) :=
  sel_ok_of_eq h rfl rfl

theorem sel_ok_toggle_show_all {a : App} (_h : sel_ok a) :
    sel_ok (App.toggle_show_all a) := by
  unfold App.toggle_show_all
  exact sel_ok_show_success _ (sel_ok_apply_filters _)

theorem sel_ok_set_priority_filter (p : Option Int) {a : App} (_h : sel_ok a) :
    sel_ok (App.set_priority_filter p a) := by
  unfold App.set_priority_filter
  exact sel_ok_show_success _ (sel_ok_apply_filters _)

theorem sel_ok_show_todo_detail {a : App} (h : sel_ok a) :
    sel_ok (App.show_todo_detail a) := by
  unfold App.show_todo_detail
  by_cases hs : a.selected_todo.isSome
  · simp only [hs, if_true]
    exact sel_ok_of_eq h rfl rfl
  · simp only [hs, if_false]
    exact h

theorem sel_ok_next_todo {a : App} (h : sel_ok a) : sel_ok (App.next_todo a) := by
  unfold sel_ok at h ⊢
  by_cases he : a.filtered_todos.isEmpty
  · simpa [App.next_todo, he] using h
  · have hne : a.filtered_todos ≠ [] := by simpa [List.isEmpty_iff] using he
    have hpos : 0 < a.filtered_todos.length := List.length_pos.mpr hne
    cases hsel : a.selected_todo with
    | none =>
        constructor
        · simp [App.next_todo, he, hsel, hne]
        · intro i hi
          simp [App.next_todo, he, hsel] at hi ⊢
          omega
    | some j =>
        have hjb := h.2 j hsel
        constructor
        · simp [App.next_todo, he, hsel, hne]
        · intro i hi
          simp [App.next_todo, he, hsel] at hi ⊢
          split at hi <;> omega

theorem sel_ok_previous_todo {a : App} (h : sel_ok a) :
    sel_ok (App.previous_todo a) := by
  unfold sel_ok at h ⊢
  by_cases he : a.filtered_todos.isEmpty
  · simpa [App.previous_todo, he] using h
  · have hne : a.filtered_todos ≠ [] := by simpa [List.isEmpty_iff] using he
    have hpos : 0 < a.filtered_todos.length := List.length_pos.mpr hne
    cases hsel : a.selected_todo with
    | none =>
        constructor
        · simp [App.previous_todo, he, hsel, hne]
        · intro i hi
          simp [App.previous_todo, he, hsel] at hi ⊢
          omega
    | some j =>
        have hjb := h.2 j hsel
        constructor
        · simp [App.previous_todo, he, hsel, hne]
        · intro i hi
          simp [App.previous_todo, he, hsel] at hi ⊢
          split at hi <;> omega

theorem msg_ok_of_eq {a b : App} (h : msg_ok a)
    (he : b.error_message = a.error_message)
    (hs : b.success_message = a.success_message) : msg_ok b := by
  unfold msg_ok at h ⊢
  rw [he, hs]
  exact h

theorem sel_ok_toggle_selected (r : Except Unit Todo) {a : App} (h : sel_ok a) :
    sel_ok (App.toggle_selected_todo r a) := by
  cases hsel : a.selected_todo with
  | none => simpa [App.toggle_selected_todo, hsel] using h
  | some index =>
    cases hget : a.filtered_todos[index]? with
    | none => simpa [App.toggle_selected_todo, hsel, hget] using h
    | some todo =>
      have hlt : index < a.filtered_todos.length := (List.getElem?_eq_some.mp hget).1
      have hne : a.filtered_todos ≠ [] := List.ne_nil_of_length_pos (by omega)
      cases r with
      | error e =>
          refine sel_ok_of_eq h ?_ ?_ <;>
            simp [App.toggle_selected_todo, hsel, hget, App.clear_messages,
              App.show_error]
      | ok updated_todo =>
          unfold sel_ok
          constructor
          · simp [App.toggle_selected_todo, hsel, hget, App.clear_messages,
              App.show_success]
            intro hc
            exact hne hc
          · intro i hi
            simp [App.toggle_selected_todo, hsel, hget, App.clear_messages,
              App.show_success] at hi ⊢
            omega

theorem sel_ok_delete_selected (r : Except Unit Unit) {a : App} (h : sel_ok a) :
    sel_ok (App.delete_selected_todo r a) := by
  cases hsel : a.selected_todo with
  | none => simpa [App.delete_selected_todo, hsel] using h
  | some index =>
    cases hget : a.filtered_todos[index]? with
    | none => simpa [App.delete_selected_todo, hsel, hget] using h
    | some todo =>
      have hlt : index < a.filtered_todos.length := (List.getElem?_eq_some.mp hget).1
      cases r with
      | error e =>
          refine sel_ok_of_eq h ?_ ?_ <;>
            simp [App.delete_selected_todo, hsel, hget, App.clear_messages,
              App.show_error]
      | ok u =>
          have hlen : (a.filtered_todos.eraseIdx index).length =
              a.filtered_todos.length - 1 := List.length_eraseIdx_of_lt hlt
          by_cases hemp : (a.filtered_todos.eraseIdx index).isEmpty
          · have hnil := List.isEmpty_iff.mp hemp
            unfold sel_ok
            simp [App.delete_selected_todo, hsel, hget, App.clear_messages,
              App.show_success, hemp, hnil]
          · have hnenil : a.filtered_todos.eraseIdx index ≠ [] := by
              simpa [List.isEmpty_iff] using hemp
            have hpos := List.length_pos.mpr hnenil
            by_cases hoob : index ≥ (a.filtered_todos.eraseIdx index).length
            · unfold sel_ok
              constructor
              · simp [App.delete_selected_todo, hsel, hget, App.clear_messages,
                  App.show_success, hemp, hoob, hnenil]
              · intro i hi
                simp [App.delete_selected_todo, hsel, hget, App.clear_messages,
                  App.show_success, hemp, hoob] at hi ⊢
                omega
            · unfold sel_ok
              constructor
              · simp [App.delete_selected_todo, hsel, hget, App.clear_messages,
                  App.show_success, hemp, hoob, hnenil]
              · intro i hi
                simp [App.delete_selected_todo, hsel, hget, App.clear_messages,
                  App.show_success, hemp, hoob] at hi ⊢
                omega

theorem sel_ok_load_todos (r : Except Unit (List Todo)) {a : App} (h : sel_ok a) :
    sel_ok (App.load_todos r a) := by
  cases r with
  | error e =>
      refine sel_ok_of_eq h ?_ ?_ <;>
        simp [App.load_todos, App.clear_messages, App.show_error]
  | ok todos =>
      simp only [App.load_todos]
      set b := App.apply_filters
        { App.clear_messages { a with loading := true } with todos := todos }
        with hbdef
      have hb := sel_ok_apply_filters
        { App.clear_messages { a with loading := true } with todos := todos }
      rw [← hbdef] at hb
      cases hsel : b.selected_todo with
      | some selected_index =>
          have hlt := hb.2 selected_index hsel
          have hnoob : ¬ selected_index ≥ b.filtered_todos.length := by omega
          refine sel_ok_of_eq hb ?_ ?_ <;>
            simp [hsel, hnoob, App.show_success]
      | none =>
          have hnil : b.filtered_todos = [] := hb.1.mp hsel
          have hemp : b.filtered_todos.isEmpty := by simp [hnil]
          refine sel_ok_of_eq hb ?_ ?_ <;>
            simp [hsel, hemp, App.show_success]

theorem sel_ok_execute_search (r : Except Unit (List Todo)) {a : App}
    (h : sel_ok a) : sel_ok (App.execute_search r a) := by
  by_cases hq : strIsEmpty (strTrim a.search_query)
  · simp only [App.execute_search, hq, if_true]
    exact sel_ok_apply_filters _
  · cases r with
    | error e =>
        refine sel_ok_of_eq h ?_ ?_ <;>
          simp [App.execute_search, hq, App.clear_messages, App.show_error]
    | ok todos =>
        have hb := sel_ok_apply_filters
          { App.clear_messages { a with loading := true } with todos := todos }
        refine sel_ok_of_eq hb ?_ ?_ <;>
          simp [App.execute_search, hq, App.show_success]

theorem sel_ok_start_edit (fmt : Int → Option String) {a : App} (h : sel_ok a) :
    sel_ok (App.start_edit_selected_todo fmt a) := by
  cases hsel : a.selected_todo with
  | none => simpa [App.start_edit_selected_todo, hsel] using h
  | some index =>
    cases hget : a.filtered_todos[index]? with
    | none => simpa [App.start_edit_selected_todo, hsel, hget] using h
    | some todo =>
        refine sel_ok_of_eq h ?_ ?_ <;>
          simp [App.start_edit_selected_todo, hsel, hget, App.clear_messages]

theorem sel_ok_update_selected (r : Except Unit Todo) {a : App} (h : sel_ok a) :
    sel_ok (App.update_selected_todo r a) := by
  by_cases hv : a.input_form.is_valid
  · cases hsel : a.selected_todo with
    | none => simpa [App.update_selected_todo, hv, hsel] using h
    | some index =>
      cases hget : a.filtered_todos[index]? with
      | none => simpa [App.update_selected_todo, hv, hsel, hget] using h
      | some todo =>
        have hlt : index < a.filtered_todos.length :=
          (List.getElem?_eq_some.mp hget).1
        have hne : a.filtered_todos ≠ [] := List.ne_nil_of_length_pos (by omega)
        cases hparse : a.input_form.parse_due_date with
        | error err =>
            refine sel_ok_of_eq h ?_ ?_ <;>
              simp [App.update_selected_todo, hv, hsel, hget, hparse,
                App.clear_messages, App.show_error]
        | ok due =>
            cases r with
            | error e =>
                refine sel_ok_of_eq h ?_ ?_ <;>
                  simp [App.update_selected_todo, hv, hsel, hget, hparse,
                    App.clear_messages, App.show_error]
            | ok updated_todo =>
                unfold sel_ok
                constructor
                · simp [App.update_selected_todo, hv, hsel, hget, hparse,
                    App.clear_messages, App.show_success]
                  intro hc
                  exact hne hc
                · intro i hi
                  simp [App.update_selected_todo, hv, hsel, hget, hparse,
                    App.clear_messages, App.show_success] at hi ⊢
                  omega
  · simpa [App.update_selected_todo, hv, App.show_error] using h

theorem sel_ok_create_todo (r : Except Unit Todo) {a : App} (h : sel_ok a) :
    sel_ok (App.create_todo r a) := by
  by_cases hv : a.input_form.is_valid
  · cases hreq : a.input_form.to_create_request with
    | error err =>
        refine sel_ok_of_eq h ?_ ?_ <;>
          simp [App.create_todo, hv, hreq, App.clear_messages, App.show_error]
    | ok req =>
        cases r with
        | error e =>
            refine sel_ok_of_eq h ?_ ?_ <;>
              simp [App.create_todo, hv, hreq, App.clear_messages, App.show_error]
        | ok todo =>
            simp only [App.create_todo, App.clear_messages, hv, hreq,
              Bool.not_true, Bool.false_eq_true, if_false]
            split
            case _ new_index heq =>
              have hni := findIdx?_lt_length _ _ _ heq
              have hne := List.ne_nil_of_length_pos
                (Nat.lt_of_le_of_lt (Nat.zero_le _) hni)
              unfold sel_ok
              constructor
              · simp [App.show_success, hne]
              · intro i hi
                simp [App.show_success] at hi ⊢
                omega
            case _ heq =>
              exact sel_ok_of_eq (sel_ok_apply_filters _) rfl rfl
  · simpa [App.create_todo, hv, App.show_error] using h

set_option maxHeartbeats 1000000 in
theorem sel_ok_handle_normal_key (k : KeyCode) (r : Remote) {a : App}
    (h : sel_ok a) : sel_ok (App.handle_normal_key a k r) := by
  unfold App.handle_normal_key
  split
  · split
    · rename_i c
      by_cases h1 : c = 'q'
      · rw [if_pos h1]; exact sel_ok_quit h
      rw [if_neg h1]
      by_cases h2 : c = 'r'
      · rw [if_pos h2]; exact sel_ok_load_todos _ h
      rw [if_neg h2]
      by_cases h3 : c = 'n' ∨ c = 'a'
      · rw [if_pos h3]; exact sel_ok_of_eq h rfl rfl
      rw [if_neg h3]
      by_cases h4 : c = 'e'
      · rw [if_pos h4]; exact sel_ok_start_edit _ h
      rw [if_neg h4]
      by_cases h5 : c = 'h' ∨ c = '?'
      · rw [if_pos h5]; exact sel_ok_of_eq h rfl rfl
      rw [if_neg h5]
      by_cases h6 : c = 's'
      · rw [if_pos h6]; exact sel_ok_of_eq h rfl rfl
      rw [if_neg h6]
      by_cases h7 : c = '/'
      · rw [if_pos h7]; exact sel_ok_start_search h
      rw [if_neg h7]
      by_cases h8 : c = 'f'
      · rw [if_pos h8]; exact sel_ok_toggle_show_all h
      rw [if_neg h8]
      by_cases h9 : c = '1'
      · rw [if_pos h9]; exact sel_ok_set_priority_filter _ h
      rw [if_neg h9]
      by_cases h10 : c = '2'
      · rw [if_pos h10]; exact sel_ok_set_priority_filter _ h
      rw [if_neg h10]
      by_cases h11 : c = '3'
      · rw [if_pos h11]; exact sel_ok_set_priority_filter _ h
      rw [if_neg h11]
      by_cases h12 : c = '0'
      · rw [if_pos h12]; exact sel_ok_set_priority_filter _ h
      rw [if_neg h12]
      by_cases h13 : c = 'v'
      · rw [if_pos h13]; exact sel_ok_show_todo_detail h
      rw [if_neg h13]
      by_cases h14 : c = 'k'
      · rw [if_pos h14]; exact sel_ok_previous_todo h
      rw [if_neg h14]
      by_cases h15 : c = 'j'
      · rw [if_pos h15]; exact sel_ok_next_todo h
      rw [if_neg h15]
      by_cases h16 : c = ' '
      · rw [if_pos h16]; exact sel_ok_toggle_selected _ h
      rw [if_neg h16]
      by_cases h17 : c = 'd'
      · rw [if_pos h17]; exact sel_ok_delete_selected _ h
      rw [if_neg h17]
      exact h
    · exact sel_ok_quit h
    · exact sel_ok_previous_todo h
    · exact sel_ok_next_todo h
    · exact sel_ok_toggle_selected _ h
    · exact h
  all_goals first
    | (split
       · exact sel_ok_of_eq h rfl rfl
       · rename_i c
         by_cases hq : c = 'q'
         · rw [if_pos hq]; exact sel_ok_of_eq h rfl rfl
         rw [if_neg hq]
         exact h
       · exact h)
    | (split
       · exact sel_ok_of_eq h rfl rfl
       · exact h)

theorem sel_ok_handle_editing_key (k : KeyCode) (r : Remote) {a : App}
    (h : sel_ok a) : sel_ok (App.handle_editing_key a k r) := by
  unfold App.handle_editing_key
  repeat' split
  all_goals first
    | exact h
    | exact sel_ok_create_todo _ h
    | exact sel_ok_update_selected _ h
    | exact sel_ok_execute_search _ h
    | exact sel_ok_of_eq h rfl rfl

theorem sel_ok_handle_key (k : KeyCode) (r : Remote) {a : App} (h : sel_ok a) :
    sel_ok (App.handle_key k r a) := by
  have hc := sel_ok_clear_messages h
  unfold App.handle_key
  cases hmode : (App.clear_messages a).input_mode
  · simp only [hmode]
    exact sel_ok_handle_normal_key _ _ hc
  · simp only [hmode]
    exact sel_ok_handle_editing_key _ _ hc

theorem msg_ok_apply_filters {a : App} (h : msg_ok a) :
    msg_ok (App.apply_filters a) :=
  msg_ok_of_eq h rfl rfl

theorem msg_ok_clear_messages (a : App) : msg_ok (App.clear_messages a) :=
  Or.inl rfl

theorem msg_ok_show_error (a : App) (m : String) : msg_ok (App.show_error a m) :=
  Or.inr rfl

theorem msg_ok_show_success (a : App) (m : String) :
    msg_ok (App.show_success a m) :=
  Or.inl rfl

theorem msg_ok_quit {a : App} (h : msg_ok a) : msg_ok (App.quit a) := h

theorem msg_ok_start_search (a : App) : msg_ok (App.start_search a) :=
  Or.inl rfl

theorem msg_ok_execute_search (r : Except Unit (List Todo)) {a : App}
    (h : msg_ok a) : msg_ok (App.execute_search r a) := by
  unfold App.execute_search
  repeat' split
  all_goals first
    | exact h
    | exact Or.inl rfl
    | exact Or.inr rfl

theorem msg_ok_toggle_show_all (a : App) : msg_ok (App.toggle_show_all a) :=
  Or.inl rfl

theorem msg_ok_set_priority_filter (p : Option Int) (a : App) :
    msg_ok (App.set_priority_filter p a) :=
  Or.inl rfl

theorem msg_ok_show_todo_detail {a : App} (h : msg_ok a) :
    msg_ok (App.show_todo_detail a) := by
  unfold App.show_todo_detail
  split
  · exact h
  · exact h

theorem msg_ok_next_todo {a : App} (h : msg_ok a) : msg_ok (App.next_todo a) := by
  unfold App.next_todo
  split
  · exact h
  · exact h

theorem msg_ok_previous_todo {a : App} (h : msg_ok a) :
    msg_ok (App.previous_todo a) := by
  unfold App.previous_todo
  split
  · exact h
  · exact h

theorem msg_ok_load_todos (r : Except Unit (List Todo)) (a : App) :
    msg_ok (App.load_todos r a) := by
  unfold App.load_todos
  repeat' split
  all_goals first
    | exact Or.inl rfl
    | exact Or.inr rfl

theorem msg_ok_toggle_selected (r : Except Unit Todo) {a : App} (h : msg_ok a) :
    msg_ok (App.toggle_selected_todo r a) := by
  unfold App.toggle_selected_todo
  repeat' split
  all_goals first
    | exact h
    | exact Or.inl rfl
    | exact Or.inr rfl

theorem msg_ok_delete_selected (r : Except Unit Unit) {a : App} (h : msg_ok a) :
    msg_ok (App.delete_selected_todo r a) := by
  unfold App.delete_selected_todo
  repeat' split
  all_goals first
    | exact h
    | exact Or.inl rfl
    | exact Or.inr rfl

theorem msg_ok_start_edit (fmt : Int → Option String) {a : App} (h : msg_ok a) :
    msg_ok (App.start_edit_selected_todo fmt a) := by
  unfold App.start_edit_selected_todo
  repeat' split
  all_goals first
    | exact h
    | exact Or.inl rfl

theorem msg_ok_update_selected (r : Except Unit Todo) {a : App} (h : msg_ok a) :
    msg_ok (App.update_selected_todo r a) := by
  by_cases hv : a.input_form.is_valid
  · cases hsel : a.selected_todo with
    | none => simpa [App.update_selected_todo, hv, hsel] using h
    | some index =>
      cases hget : a.filtered_todos[index]? with
      | none => simpa [App.update_selected_todo, hv, hsel, hget] using h
      | some todo =>
        cases hparse : a.input_form.parse_due_date with
        | error err =>
            simp only [App.update_selected_todo, App.clear_messages, hv, hsel,
              hget, hparse]
            exact Or.inr rfl
        | ok due =>
            cases r with
            | error e =>
                simp only [App.update_selected_todo, App.clear_messages, hv,
                  hsel, hget, hparse]
                exact Or.inr rfl
            | ok updated_todo =>
                simp only [App.update_selected_todo, App.clear_messages, hv,
                  hsel, hget, hparse]
                exact Or.inl rfl
  · simp [App.update_selected_todo, hv]
    exact Or.inr rfl

theorem msg_ok_create_todo (r : Except Unit Todo) {a : App} (h : msg_ok a) :
    msg_ok (App.create_todo r a) := by
  by_cases hv : a.input_form.is_valid
  · cases hreq : a.input_form.to_create_request with
    | error err =>
        simp only [App.create_todo, App.clear_messages, hv, hreq,
          Bool.not_true, Bool.false_eq_true, if_false]
        exact Or.inr rfl
    | ok req =>
        cases r with
        | error e =>
            simp only [App.create_todo, App.clear_messages, hv, hreq,
              Bool.not_true, Bool.false_eq_true, if_false]
            exact Or.inr rfl
        | ok todo =>
            simp only [App.create_todo, App.clear_messages, hv, hreq,
              Bool.not_true, Bool.false_eq_true, if_false]
            exact Or.inl rfl
  · simp [App.create_todo, hv]
    exact Or.inr rfl

theorem msg_ok_handle_normal_key (k : KeyCode) (r : Remote) {a : App}
    (h : msg_ok a) : msg_ok (App.handle_normal_key a k r) := by
  unfold App.handle_normal_key
  split
  · split
    · rename_i c
      by_cases h1 : c = 'q'
      · rw [if_pos h1]; exact msg_ok_quit h
      rw [if_neg h1]
      by_cases h2 : c = 'r'
      · rw [if_pos h2]; exact msg_ok_load_todos _ _
      rw [if_neg h2]
      by_cases h3 : c = 'n' ∨ c = 'a'
      · rw [if_pos h3]; exact h
      rw [if_neg h3]
      by_cases h4 : c = 'e'
      · rw [if_pos h4]; exact msg_ok_start_edit _ h
      rw [if_neg h4]
      by_cases h5 : c = 'h' ∨ c = '?'
      · rw [if_pos h5]; exact h
      rw [if_neg h5]
      by_cases h6 : c = 's'
      · rw [if_pos h6]; exact h
      rw [if_neg h6]
      by_cases h7 : c = '/'
      · rw [if_pos h7]; exact msg_ok_start_search _
      rw [if_neg h7]
      by_cases h8 : c = 'f'
      · rw [if_pos h8]; exact msg_ok_toggle_show_all _
      rw [if_neg h8]
      by_cases h9 : c = '1'
      · rw [if_pos h9]; exact msg_ok_set_priority_filter _ _
      rw [if_neg h9]
      by_cases h10 : c = '2'
      · rw [if_pos h10]; exact msg_ok_set_priority_filter _ _
      rw [if_neg h10]
      by_cases h11 : c = '3'
      · rw [if_pos h11]; exact msg_ok_set_priority_filter _ _
      rw [if_neg h11]
      by_cases h12 : c = '0'
      · rw [if_pos h12]; exact msg_ok_set_priority_filter _ _
      rw [if_neg h12]
      by_cases h13 : c = 'v'
      · rw [if_pos h13]; exact msg_ok_show_todo_detail h
      rw [if_neg h13]
      by_cases h14 : c = 'k'
      · rw [if_pos h14]; exact msg_ok_previous_todo h
      rw [if_neg h14]
      by_cases h15 : c = 'j'
      · rw [if_pos h15]; exact msg_ok_next_todo h
      rw [if_neg h15]
      by_cases h16 : c = ' '
      · rw [if_pos h16]; exact msg_ok_toggle_selected _ h
      rw [if_neg h16]
      by_cases h17 : c = 'd'
      · rw [if_pos h17]; exact msg_ok_delete_selected _ h
      rw [if_neg h17]
      exact h
    · exact msg_ok_quit h
    · exact msg_ok_previous_todo h
    · exact msg_ok_next_todo h
    · exact msg_ok_toggle_selected _ h
    · exact h
  all_goals first
    | (split
       · exact h
       · rename_i c
         by_cases hq : c = 'q'
         · rw [if_pos hq]; exact h
         rw [if_neg hq]
         exact h
       · exact h)
    | (split
       · exact h
       · exact h)

theorem msg_ok_handle_editing_key (k : KeyCode) (r : Remote) {a : App}
    (h : msg_ok a) : msg_ok (App.handle_editing_key a k r) := by
  unfold App.handle_editing_key
  repeat' split
  all_goals first
    | exact h
    | exact msg_ok_create_todo _ h
    | exact msg_ok_update_selected _ h
    | exact msg_ok_execute_search _ h

theorem msg_ok_handle_key (k : KeyCode) (r : Remote) (a : App) :
    msg_ok (App.handle_key k r a) := by
  unfold App.handle_key
  cases hmode : (App.clear_messages a).input_mode
  · simp only [hmode]
    exact msg_ok_handle_normal_key _ _ (msg_ok_clear_messages a)
  · simp only [hmode]
    exact msg_ok_handle_editing_key _ _ (msg_ok_clear_messages a)

theorem sel_ok_reachable {a : App} (h : Reachable a) : sel_ok a := by
  induction h with
  | init => exact sel_ok_apply_filters _
  | key k r _ ih => exact sel_ok_handle_key k r ih
  | load r _ ih => exact sel_ok_load_todos r ih
  | search_exec r _ ih => exact sel_ok_execute_search r ih
  | toggle r _ ih => exact sel_ok_toggle_selected r ih
  | delete r _ ih => exact sel_ok_delete_selected r ih
  | update r _ ih => exact sel_ok_update_selected r ih
  | create r _ ih => exact sel_ok_create_todo r ih
  | search_start _ ih => exact sel_ok_start_search ih
  | show_all _ ih => exact sel_ok_toggle_show_all ih
  | prio p _ ih => exact sel_ok_set_priority_filter p ih
  | nav_next _ ih => exact sel_ok_next_todo ih
  | nav_prev _ ih => exact sel_ok_previous_todo ih
  | detail _ ih => exact sel_ok_show_todo_detail ih
  | edit_start fmt _ ih => exact sel_ok_start_edit fmt ih

theorem msg_ok_reachable {a : App} (h : Reachable a) : msg_ok a := by
  induction h with
  | init => exact msg_ok_apply_filters (Or.inl rfl)
  | key k r _ _ => exact msg_ok_handle_key k r _
  | load r _ _ => exact msg_ok_load_todos r _
  | search_exec r _ ih => exact msg_ok_execute_search r ih
  | toggle r _ ih => exact msg_ok_toggle_selected r ih
  | delete r _ ih => exact msg_ok_delete_selected r ih
  | update r _ ih => exact msg_ok_update_selected r ih
  | create r _ ih => exact msg_ok_create_todo r ih
  | search_start _ _ => exact msg_ok_start_search _
  | show_all _ _ => exact msg_ok_toggle_show_all _
  | prio p _ _ => exact msg_ok_set_priority_filter p _
  | nav_next _ ih => exact msg_ok_next_todo ih
  | nav_prev _ ih => exact msg_ok_previous_todo ih
  | detail _ ih => exact msg_ok_show_todo_detail ih
  | edit_start fmt _ ih => exact msg_ok_start_edit fmt ih

theorem int_beq_comm (x y : Int) : (x == y) = (y == x) := by
  by_cases h : x = y
  · subst h; rfl
  · have h2 : ¬ y = x := fun hh => h hh.symm
    simp [beq_iff_eq, h, h2]

/-- The filter predicate exactly as the specification words it:
(show-completed OR NOT completed) AND (search-query empty OR the query is
a case-insensitive substring of the title or of the description) AND
(priority-filter is none OR the item priority equals it). -/
def spec_filter_pred (show_completed : Bool) (query : String)
    (prio : Option Int) (t : Todo) : Bool :=
  (show_completed || !t.completed) &&
  (strIsEmpty query || strContainsCI t.title query ||
    (match t.description with
     | some d => strContainsCI d query
     | none => false)) &&
  (match prio with
   | some p => p == t.priority
   | none => true)

/-- The source filter closure agrees pointwise with the predicate the
specification describes. -/
theorem matches_filters_eq_spec (a : App) (t : Todo) :
    a.matches_filters t =
      spec_filter_pred a.show_all_todos a.search_query a.filter_priority t := by
  unfold App.matches_filters spec_filter_pred
  cases hs : a.show_all_todos <;> cases hc : t.completed <;>
    cases hq : strIsEmpty a.search_query <;>
      cases hm : (strContainsCI t.title a.search_query ||
        (match t.description with
         | some d => strContainsCI d a.search_query
         | none => false)) <;>
        cases hp : a.filter_priority <;>
          simp_all [int_beq_comm]

theorem apply_filters_filtered (a : App) :
    (App.apply_filters a).filtered_todos =
      a.todos.filter (fun t => a.matches_filters t) := rfl

/-- C1: apply_filters produces exactly the todos that satisfy the
spec predicate — every item of the filtered view satisfies it, no
satisfying item of the collection is excluded, and the source order is
preserved (the filtered view is a sublist of the collection). -/
theorem apply_filters_exactly_spec_predicate (a : App) :
    (App.apply_filters a).filtered_todos =
      a.todos.filter (fun t =>
        spec_filter_pred a.show_all_todos a.search_query a.filter_priority t) ∧
    List.Sublist (App.apply_filters a).filtered_todos a.todos ∧
    ∀ t : Todo,
      t ∈ (App.apply_filters a).filtered_todos ↔
        (t ∈ a.todos ∧
         spec_filter_pred a.show_all_todos a.search_query a.filter_priority t
           = true) := by
  have hfun : (fun t => a.matches_filters t) =
      (fun t =>
        spec_filter_pred a.show_all_todos a.search_query a.filter_priority t) :=
    funext fun t => matches_filters_eq_spec a t
  refine ⟨?_, ?_, ?_⟩
  · rw [apply_filters_filtered, hfun]
  · rw [apply_filters_filtered]
    exact List.filter_sublist a.todos
  · intro t
    rw [apply_filters_filtered, hfun]
    exact List.mem_filter

/-- Witness for C1 at a concrete state: a completed todo is excluded
while the pending one is kept, in source order. -/
theorem apply_filters_exactly_spec_predicate_witness :
    (App.apply_filters init_app).filtered_todos =
      init_app.todos.filter (fun t =>
        spec_filter_pred init_app.show_all_todos init_app.search_query
          init_app.filter_priority t) :=
  (apply_filters_exactly_spec_predicate init_app).1

/-- A pending medium-priority todo used in concrete scenarios. -/
def milk_todo : Todo :=
  { id := "id1"
    title := "Buy milk"
    description := none
    completed := false
    priority := 2
    due_date := none
    created_at := 0
    updated_at := 0 }

/-- The same todo after the server toggles its completion flag. -/
def milk_done : Todo := { milk_todo with completed := true, updated_at := 1 }

/-- The state reached from startup by loading one pending todo and then
toggling it successfully (the server answers with the flipped todo). -/
def stale_state : App :=
  App.toggle_selected_todo (Except.ok milk_done)
    (App.load_todos (Except.ok [milk_todo]) init_app)

/-- The filtered view always equals what recomputing it from the full
collection with the current filter state would yield. -/
def filter_consistent (a : App) : Prop :=
  a.filtered_todos = a.todos.filter (fun t => a.matches_filters t)

/-- matches_filters reads only the three filter-state fields. -/
theorem matches_filters_congr {a b : App} (h1 : b.show_all_todos = a.show_all_todos)
    (h2 : b.search_query = a.search_query)
    (h3 : b.filter_priority = a.filter_priority) (t : Todo) :
    b.matches_filters t = a.matches_filters t := by
  unfold App.matches_filters
  rw [h1, h2, h3]

theorem filter_consistent_of_eq {a b : App} (h : filter_consistent a)
    (ht : b.todos = a.todos) (hf : b.filtered_todos = a.filtered_todos)
    (h1 : b.show_all_todos = a.show_all_todos)
    (h2 : b.search_query = a.search_query)
    (h3 : b.filter_priority = a.filter_priority) : filter_consistent b := by
  unfold filter_consistent at h ⊢
  rw [ht, hf, show (fun t => b.matches_filters t) = (fun t => a.matches_filters t)
    from funext fun t => matches_filters_congr h1 h2 h3 t]
  exact h

theorem filter_consistent_apply_filters (a : App) :
    filter_consistent (App.apply_filters a) := by
  unfold filter_consistent
  have hfun : (fun t => (App.apply_filters a).matches_filters t) =
      (fun t => a.matches_filters t) :=
    funext fun t => matches_filters_congr rfl rfl rfl t
  rw [apply_filters_filtered]
  have ht : (App.apply_filters a).todos = a.todos := rfl
  rw [ht, hfun]

theorem filter_consistent_load_ok (a : App) (ts : List Todo) :
    filter_consistent (App.load_todos (Except.ok ts) a) := by
  simp only [App.load_todos]
  set b := App.apply_filters
    { App.clear_messages { a with loading := true } with todos := ts } with hbdef
  have hb := filter_consistent_apply_filters
    { App.clear_messages { a with loading := true } with todos := ts }
  rw [← hbdef] at hb
  cases hsel : b.selected_todo with
  | some idx =>
      by_cases hoob : idx ≥ b.filtered_todos.length
      · refine filter_consistent_of_eq hb ?_ ?_ ?_ ?_ ?_ <;>
          simp [hsel, hoob, App.show_success]
      · refine filter_consistent_of_eq hb ?_ ?_ ?_ ?_ ?_ <;>
          simp [hsel, hoob, App.show_success]
  | none =>
      by_cases hemp : b.filtered_todos.isEmpty
      · refine filter_consistent_of_eq hb ?_ ?_ ?_ ?_ ?_ <;>
          simp [hsel, hemp, App.show_success]
      · refine filter_consistent_of_eq hb ?_ ?_ ?_ ?_ ?_ <;>
          simp [hsel, hemp, App.show_success]

theorem filter_consistent_toggle_show_all (a : App) :
    filter_consistent (App.toggle_show_all a) :=
  filter_consistent_of_eq (filter_consistent_apply_filters _) rfl rfl rfl rfl rfl

theorem filter_consistent_set_priority (a : App) (p : Option Int) :
    filter_consistent (App.set_priority_filter p a) :=
  filter_consistent_of_eq (filter_consistent_apply_filters _) rfl rfl rfl rfl rfl

theorem filter_consistent_execute_search_ok (a : App) (ts : List Todo) :
    filter_consistent (App.execute_search (Except.ok ts) a) := by
  by_cases hqe : strIsEmpty (strTrim a.search_query)
  · simp only [App.execute_search, hqe, if_true]
    exact filter_consistent_apply_filters _
  · simp only [App.execute_search, hqe, Bool.false_eq_true, if_false]
    exact filter_consistent_of_eq (filter_consistent_apply_filters _)
      rfl rfl rfl rfl rfl

theorem filter_consistent_create_ok (a : App) (u : Todo)
    (req : CreateTodoRequest) (hv : a.input_form.is_valid = true)
    (hreq : a.input_form.to_create_request = Except.ok req) :
    filter_consistent (App.create_todo (Except.ok u) a) := by
  simp only [App.create_todo, App.clear_messages, hv, hreq,
    Bool.not_true, Bool.false_eq_true, if_false]
  split
  · exact filter_consistent_of_eq (filter_consistent_apply_filters _)
      rfl rfl rfl rfl rfl
  · exact filter_consistent_of_eq (filter_consistent_apply_filters _)
      rfl rfl rfl rfl rfl

theorem toggle_ok_patches_in_place (a : App) (u t0 : Todo) (i : Nat)
    (hsel : a.selected_todo = some i) (hget : a.filtered_todos[i]? = some t0) :
    (App.toggle_selected_todo (Except.ok u) a).filtered_todos =
      a.filtered_todos.set i u ∧
    (App.toggle_selected_todo (Except.ok u) a).todos =
      (match a.todos.findIdx? (fun (x : Todo) => x.id == t0.id) with
       | some j => a.todos.set j u
       | none => a.todos) := by
  constructor <;>
    simp [App.toggle_selected_todo, hsel, hget, App.clear_messages,
      App.show_success]

theorem update_ok_patches_in_place (a : App) (u t0 : Todo) (i : Nat)
    (dopt : Option Int) (hv : a.input_form.is_valid = true)
    (hparse : a.input_form.parse_due_date = Except.ok dopt)
    (hsel : a.selected_todo = some i) (hget : a.filtered_todos[i]? = some t0) :
    (App.update_selected_todo (Except.ok u) a).filtered_todos =
      a.filtered_todos.set i u ∧
    (App.update_selected_todo (Except.ok u) a).todos =
      (match a.todos.findIdx? (fun (x : Todo) => x.id == t0.id) with
       | some j => a.todos.set j u
       | none => a.todos) := by
  constructor <;>
    simp [App.update_selected_todo, hv, hparse, hsel, hget, App.clear_messages,
      App.show_success]

/-- C2 counterexample: from the initial state, load one pending todo and
toggle it successfully while completed todos are hidden.  The reached
state's filtered view still shows the (now completed) todo, so it differs
from recomputing the view from the full collection, and it contains an
item that fails the current filter predicate. -/
theorem filtered_view_stale_counterexample :
    Reachable stale_state ∧
    stale_state.filtered_todos ≠
      stale_state.todos.filter (fun t => stale_state.matches_filters t) ∧
    milk_done ∈ stale_state.filtered_todos ∧
    stale_state.matches_filters milk_done = false := by
  refine ⟨Reachable.toggle _ (Reachable.load _ Reachable.init), ?_, ?_, ?_⟩
  · decide
  · decide
  · decide

/-- C2 amended: the filtered view equals recomputation from the full
collection after every operation that routes through apply_filters
(filter changes, reload, search, create), while a successful toggle or
a successful update bypasses recomputation and patches the selected
index of the filtered view and the id-matched index of the full
collection in place. -/
theorem filtered_view_recompute_amended (a : App) (ts : List Todo)
    (p : Option Int) (u t0 : Todo) (i : Nat) (req : CreateTodoRequest)
    (dopt : Option Int) :
    filter_consistent (App.apply_filters a) ∧
    filter_consistent (App.load_todos (Except.ok ts) a) ∧
    filter_consistent (App.toggle_show_all a) ∧
    filter_consistent (App.set_priority_filter p a) ∧
    filter_consistent (App.execute_search (Except.ok ts) a) ∧
    (a.input_form.is_valid = true →
      a.input_form.to_create_request = Except.ok req →
      filter_consistent (App.create_todo (Except.ok u) a)) ∧
    (a.selected_todo = some i → a.filtered_todos[i]? = some t0 →
      (App.toggle_selected_todo (Except.ok u) a).filtered_todos =
        a.filtered_todos.set i u ∧
      (App.toggle_selected_todo (Except.ok u) a).todos =
        (match a.todos.findIdx? (fun (x : Todo) => x.id == t0.id) with
         | some j => a.todos.set j u
         | none => a.todos)) ∧
    (a.input_form.is_valid = true →
      a.input_form.parse_due_date = Except.ok dopt →
      a.selected_todo = some i → a.filtered_todos[i]? = some t0 →
      (App.update_selected_todo (Except.ok u) a).filtered_todos =
        a.filtered_todos.set i u ∧
      (App.update_selected_todo (Except.ok u) a).todos =
        (match a.todos.findIdx? (fun (x : Todo) => x.id == t0.id) with
         | some j => a.todos.set j u
         | none => a.todos)) :=
  ⟨filter_consistent_apply_filters a,
   filter_consistent_load_ok a ts,
   filter_consistent_toggle_show_all a,
   filter_consistent_set_priority a p,
   filter_consistent_execute_search_ok a ts,
   fun hv hreq => filter_consistent_create_ok a u req hv hreq,
   fun hsel hget => toggle_ok_patches_in_place a u t0 i hsel hget,
   fun hv hparse hsel hget =>
     update_ok_patches_in_place a u t0 i dopt hv hparse hsel hget⟩

/-- The loaded one-todo state with a valid draft title, for exercising
the toggle and update patch paths. -/
def patch_app : App :=
  { App.load_todos (Except.ok [milk_todo]) init_app with
    input_form := { InputForm.new with title := "x" } }

/-- Witness for the amended C2 at a concrete state: with one pending
todo loaded, a valid form and index 0 selected, a successful toggle and
a successful update each replace exactly the selected entry of the
filtered view and the id-matched entry of the collection. -/
theorem filtered_view_recompute_amended_witness :
    patch_app.selected_todo = some 0 ∧
    patch_app.filtered_todos[0]? = some milk_todo ∧
    patch_app.input_form.is_valid = true ∧
    patch_app.input_form.parse_due_date = Except.ok none ∧
    ((App.toggle_selected_todo (Except.ok milk_done) patch_app).filtered_todos =
        patch_app.filtered_todos.set 0 milk_done ∧
      (App.toggle_selected_todo (Except.ok milk_done) patch_app).todos =
        (match patch_app.todos.findIdx? (fun (x : Todo) => x.id == milk_todo.id)
            with
         | some j => patch_app.todos.set j milk_done
         | none => patch_app.todos)) ∧
    ((App.update_selected_todo (Except.ok milk_done) patch_app).filtered_todos =
        patch_app.filtered_todos.set 0 milk_done ∧
      (App.update_selected_todo (Except.ok milk_done) patch_app).todos =
        (match patch_app.todos.findIdx? (fun (x : Todo) => x.id == milk_todo.id)
            with
         | some j => patch_app.todos.set j milk_done
         | none => patch_app.todos)) :=
  ⟨by decide, by decide, by decide, by decide,
   (filtered_view_recompute_amended patch_app [] none milk_done milk_todo 0
      { title := "", description := none, priority := none, due_date := none }
      none).2.2.2.2.2.2.1 (by decide) (by decide),
   (filtered_view_recompute_amended patch_app [] none milk_done milk_todo 0
      { title := "", description := none, priority := none, due_date := none }
      none).2.2.2.2.2.2.2 (by decide) (by decide) (by decide) (by decide)⟩

/-- C3: in every reachable state — under any sequence of key-handling,
coordinator and navigation operations with arbitrary remote results —
the selection is none exactly when the filtered view is empty, and any
selected index is inside the filtered view. -/
theorem selection_none_iff_empty_reachable (a : App) (h : Reachable a) :
    (a.selected_todo = none ↔ a.filtered_todos = []) ∧
    ∀ i, a.selected_todo = some i → i < a.filtered_todos.length :=
  sel_ok_reachable h

/-- Witness for C3 at the initial state. -/
theorem selection_none_iff_empty_reachable_witness :
    (init_app.selected_todo = none ↔ init_app.filtered_todos = []) ∧
    ∀ i, init_app.selected_todo = some i → i < init_app.filtered_todos.length :=
  selection_none_iff_empty_reachable init_app Reachable.init

/-- Alpha and Beta, two pending todos for the clamping scenarios. -/
def todo_alpha : Todo := { milk_todo with id := "a1", title := "Alpha" }

def todo_beta : Todo := { milk_todo with id := "b2", title := "Beta" }

/-- The reachable state with two todos loaded and the second one
selected. -/
def two_selected_state : App :=
  App.next_todo (App.load_todos (Except.ok [todo_alpha, todo_beta]) init_app)

/-- C4 counterexample: clearing the priority filter (an operation that
replaces the filtered view) on a state whose previously selected index 1
is still in bounds of the new two-element view resets the selection to
index 0 instead of keeping index 1, contradicting the claimed clamping
rule. -/
theorem clamping_counterexample :
    Reachable two_selected_state ∧
    two_selected_state.selected_todo = some 1 ∧
    (App.set_priority_filter none two_selected_state).filtered_todos.length
      = 2 ∧
    (App.set_priority_filter none two_selected_state).selected_todo
      = some 0 := by
  refine ⟨Reachable.nav_next (Reachable.load _ Reachable.init), ?_, ?_, ?_⟩
  · decide
  · decide
  · decide

/-- C4 amended: operations that rebuild the filtered view through
apply_filters (filter change, reload, search) reset the selection —
none when the new view is empty and index 0 otherwise, regardless of the
previous selection; delete instead clamps: selection becomes none when
the view empties, the new last index when the removed index is now out of
bounds, and is kept when still in bounds. -/
theorem clamping_amended (a : App) (i : Nat) (t0 : Todo) :
    ((App.apply_filters a).selected_todo =
      (if (App.apply_filters a).filtered_todos.isEmpty then none
       else some 0)) ∧
    (a.selected_todo = some i → a.filtered_todos[i]? = some t0 →
      ((App.delete_selected_todo (Except.ok ()) a).filtered_todos =
          a.filtered_todos.eraseIdx i ∧
       (App.delete_selected_todo (Except.ok ()) a).selected_todo =
         (if (a.filtered_todos.eraseIdx i).isEmpty then none
          else if i ≥ (a.filtered_todos.eraseIdx i).length then
            some ((a.filtered_todos.eraseIdx i).length - 1)
          else some i))) := by
  constructor
  · unfold App.apply_filters
    by_cases he : (a.todos.filter (fun t => a.matches_filters t)).isEmpty <;>
      simp [he]
  · intro hsel hget
    constructor
    · by_cases hemp : (a.filtered_todos.eraseIdx i).isEmpty
      · simp [App.delete_selected_todo, hsel, hget, App.clear_messages,
          App.show_success, hemp]
      · by_cases hoob : i ≥ (a.filtered_todos.eraseIdx i).length
        · simp [App.delete_selected_todo, hsel, hget, App.clear_messages,
            App.show_success, hemp, hoob]
        · simp [App.delete_selected_todo, hsel, hget, App.clear_messages,
            App.show_success, hemp, hoob]
    · by_cases hemp : (a.filtered_todos.eraseIdx i).isEmpty
      · simp [App.delete_selected_todo, hsel, hget, App.clear_messages,
          App.show_success, hemp]
      · by_cases hoob : i ≥ (a.filtered_todos.eraseIdx i).length
        · simp [App.delete_selected_todo, hsel, hget, App.clear_messages,
            App.show_success, hemp, hoob]
        · simp [App.delete_selected_todo, hsel, hget, App.clear_messages,
            App.show_success, hemp, hoob, hsel]

/-- Witness for the amended C4: deleting the last of three loaded todos
(the selected index 2) clamps the selection to the new last index 1. -/
theorem clamping_amended_witness :
    (App.apply_filters init_app).selected_todo =
      (if (App.apply_filters init_app).filtered_todos.isEmpty then none
       else some 0) ∧
    (App.delete_selected_todo (Except.ok ())
        (App.next_todo (App.next_todo
          (App.load_todos (Except.ok [todo_alpha, todo_beta, milk_todo])
            init_app)))).selected_todo = some 1 := by
  constructor
  · exact (clamping_amended init_app 0 milk_todo).1
  · have h := (clamping_amended
      (App.next_todo (App.next_todo
        (App.load_todos (Except.ok [todo_alpha, todo_beta, milk_todo])
          init_app))) 2 milk_todo).2 (by decide) (by decide)
    rw [h.2]
    decide

/-- C9: on a non-empty filtered view with a valid selection, next then
previous and previous then next both restore the original selection
(wrapping from last to first and back); on an empty view both are
no-ops. -/
theorem next_previous_inverse (a : App) (i : Nat) :
    (a.filtered_todos = [] →
      App.next_todo a = a ∧ App.previous_todo a = a) ∧
    (a.selected_todo = some i → i < a.filtered_todos.length →
      (App.previous_todo (App.next_todo a)).selected_todo = some i ∧
      (App.next_todo (App.previous_todo a)).selected_todo = some i) := by
  constructor
  · intro hnil
    have he : a.filtered_todos.isEmpty = true := by simp [hnil]
    constructor
    · unfold App.next_todo
      rw [if_pos he]
    · unfold App.previous_todo
      rw [if_pos he]
  · intro hsel hlt
    have he : ¬ a.filtered_todos.isEmpty = true := by
      simp [List.isEmpty_iff]
      exact List.ne_nil_of_length_pos (by omega)
    constructor
    · by_cases hend : i ≥ a.filtered_todos.length - 1
      · simp [App.next_todo, App.previous_todo, he, hsel, hend] <;> omega
      · simp [App.next_todo, App.previous_todo, he, hsel, hend] <;> omega
    · by_cases hzero : i = 0
      · simp [App.next_todo, App.previous_todo, he, hsel, hzero] <;> omega
      · have hstep : ¬ (i - 1 ≥ a.filtered_todos.length - 1) := by omega
        simp [App.next_todo, App.previous_todo, he, hsel, hzero, hstep] <;>
          omega

/-- Witness for C9: with two todos loaded and index 0 selected, the two
round trips restore index 0, and on the empty initial state both moves
are no-ops. -/
theorem next_previous_inverse_witness :
    (init_app.filtered_todos = [] →
      App.next_todo init_app = init_app ∧
      App.previous_todo init_app = init_app) ∧
    ((App.load_todos (Except.ok [todo_alpha, todo_beta])
        init_app).selected_todo = some 0 ∧
      0 < (App.load_todos (Except.ok [todo_alpha, todo_beta])
        init_app).filtered_todos.length ∧
      (App.previous_todo (App.next_todo
        (App.load_todos (Except.ok [todo_alpha, todo_beta])
          init_app))).selected_todo = some 0) :=
  ⟨(next_previous_inverse init_app 0).1,
   by decide,
   by decide,
   ((next_previous_inverse
      (App.load_todos (Except.ok [todo_alpha, todo_beta]) init_app) 0).2
      (by decide) (by decide)).1⟩

/-- C10: handle_key first clears both status messages and only then
routes the key by input mode (so a status message survives only until
the next key event), and in every reachable state the error and success
messages are never set at the same time. -/
theorem handle_key_clears_messages (a : App) (k : KeyCode) (r : Remote) :
    (App.handle_key k r a =
      (match (App.clear_messages a).input_mode with
       | InputMode.Normal => App.handle_normal_key (App.clear_messages a) k r
       | InputMode.Editing =>
           App.handle_editing_key (App.clear_messages a) k r)) ∧
    (App.clear_messages a).error_message = none ∧
    (App.clear_messages a).success_message = none ∧
    (Reachable a →
      ¬(a.error_message.isSome = true ∧ a.success_message.isSome = true)) := by
  refine ⟨rfl, rfl, rfl, ?_⟩
  intro hr ⟨he, hs⟩
  cases msg_ok_reachable hr with
  | inl h => rw [h] at he; simp at he
  | inr h => rw [h] at hs; simp at hs

/-- Witness for C10 at the initial state. -/
theorem handle_key_clears_messages_witness :
    (App.clear_messages init_app).error_message = none ∧
    ¬(init_app.error_message.isSome = true ∧
      init_app.success_message.isSome = true) :=
  ⟨(handle_key_clears_messages init_app KeyCode.null
      { list_result := Except.error ()
        search_result := Except.error ()
        toggle_result := Except.error ()
        delete_result := Except.error ()
        update_result := Except.error ()
        create_result := Except.error ()
        edit_fmt := fun _ => none }).2.1,
   (handle_key_clears_messages init_app KeyCode.null
      { list_result := Except.error ()
        search_result := Except.error ()
        toggle_result := Except.error ()
        delete_result := Except.error ()
        update_result := Except.error ()
        create_result := Except.error ()
        edit_fmt := fun _ => none }).2.2.2 Reachable.init⟩

/-- The local state the spec says a failed remote operation must not
touch: the collection, the filtered view, the selection, the screen and
the input mode. -/
def local_state_unchanged (a b : App) : Prop :=
  b.todos = a.todos ∧ b.filtered_todos = a.filtered_todos ∧
  b.selected_todo = a.selected_todo ∧ b.current_screen = a.current_screen ∧
  b.input_mode = a.input_mode

/-- Outcome of a failed remote operation: local state untouched, an
error message set, and the busy flag false at the end. -/
def failed_op_frame (a b : App) : Prop :=
  local_state_unchanged a b ∧ b.error_message.isSome = true ∧
  b.loading = false

theorem to_create_request_ok_of_parse {f : InputForm} {d : Option Int}
    (h : f.parse_due_date = Except.ok d) :
    f.to_create_request = Except.ok
      { title := strTrim f.title
        description :=
          if strIsEmpty (strTrim f.description) then none
          else some (strTrim f.description)
        priority := some f.priority
        due_date := d } := by
  unfold InputForm.to_create_request
  rw [h]

/-- C6: when the remote collaborator fails, each of the six remote
operations leaves the collection, filtered view, selection, screen and
input mode unchanged, sets an error message, and ends with the busy flag
false — load unconditionally, the other five under exactly the
preconditions their code paths need to reach the remote call (a valid
selection for toggle and delete, additionally a valid form and
well-formed due date for update, a valid form and well-formed due date
for create, a non-empty trimmed query for search); in particular the
selected todo is still present unchanged in the filtered view after a
failed toggle. -/
theorem remote_failure_leaves_state (a : App) (i : Nat) (t : Todo)
    (d : Option Int) (e : Unit) :
    failed_op_frame a (App.load_todos (Except.error e) a) ∧
    (a.selected_todo = some i → a.filtered_todos[i]? = some t →
      failed_op_frame a (App.toggle_selected_todo (Except.error e) a) ∧
      (App.toggle_selected_todo (Except.error e) a).filtered_todos[i]? =
        some t) ∧
    (a.selected_todo = some i → a.filtered_todos[i]? = some t →
      failed_op_frame a (App.delete_selected_todo (Except.error e) a)) ∧
    (a.input_form.is_valid = true →
      a.input_form.parse_due_date = Except.ok d →
      a.selected_todo = some i → a.filtered_todos[i]? = some t →
      failed_op_frame a (App.update_selected_todo (Except.error e) a)) ∧
    (a.input_form.is_valid = true →
      a.input_form.parse_due_date = Except.ok d →
      failed_op_frame a (App.create_todo (Except.error e) a)) ∧
    (strIsEmpty (strTrim a.search_query) = false →
      failed_op_frame a (App.execute_search (Except.error e) a)) := by
  refine ⟨?_, ?_, ?_, ?_, ?_, ?_⟩
  · unfold failed_op_frame local_state_unchanged
    simp [App.load_todos, App.clear_messages, App.show_error]
  · intro hsel hget
    constructor
    · unfold failed_op_frame local_state_unchanged
      simp [App.toggle_selected_todo, hsel, hget, App.clear_messages,
        App.show_error]
    · simp only [App.toggle_selected_todo, hsel, hget, App.clear_messages,
        App.show_error]
  · intro hsel hget
    unfold failed_op_frame local_state_unchanged
    simp [App.delete_selected_todo, hsel, hget, App.clear_messages,
      App.show_error]
  · intro hv hparse hsel hget
    unfold failed_op_frame local_state_unchanged
    simp [App.update_selected_todo, hv, hsel, hget, hparse,
      App.clear_messages, App.show_error]
  · intro hv hparse
    have hreq := to_create_request_ok_of_parse hparse
    unfold failed_op_frame local_state_unchanged
    simp [App.create_todo, hv, hreq, App.clear_messages, App.show_error]
  · intro hq
    unfold failed_op_frame local_state_unchanged
    simp [App.execute_search, hq, App.clear_messages, App.show_error]

/-- A concrete state with one pending selected todo, a valid form with an
empty due date, and a pending non-empty search query. -/
def frame_app : App :=
  { init_app with
    todos := [milk_todo]
    filtered_todos := [milk_todo]
    selected_todo := some 0
    list_state := some 0
    input_form := { InputForm.new with title := "x" }
    search_query := "milk" }

/-- A state with one pending todo selected but an otherwise fresh
session: the form is the untouched (invalid) draft and the search query
is empty. -/
def fresh_toggle_app : App :=
  { init_app with
    todos := [milk_todo]
    filtered_todos := [milk_todo]
    selected_todo := some 0
    list_state := some 0 }

/-- Witness for C6: a failed load at the fresh startup state leaves it
unchanged with an error shown, and a failed toggle in a fresh session —
untouched invalid form, empty search query — leaves the selected todo
in place with an error message and the busy flag false. -/
theorem remote_failure_leaves_state_witness :
    failed_op_frame init_app (App.load_todos (Except.error ()) init_app) ∧
    fresh_toggle_app.selected_todo = some 0 ∧
    fresh_toggle_app.filtered_todos[0]? = some milk_todo ∧
    fresh_toggle_app.input_form.is_valid = false ∧
    strIsEmpty (strTrim fresh_toggle_app.search_query) = true ∧
    failed_op_frame fresh_toggle_app
      (App.toggle_selected_todo (Except.error ()) fresh_toggle_app) ∧
    (App.toggle_selected_todo (Except.error ())
        fresh_toggle_app).filtered_todos[0]? = some milk_todo :=
  ⟨(remote_failure_leaves_state init_app 0 milk_todo none ()).1,
   by decide, by decide, by decide, by decide,
   ((remote_failure_leaves_state fresh_toggle_app 0 milk_todo none ()).2.1
      (by decide) (by decide)).1,
   ((remote_failure_leaves_state fresh_toggle_app 0 milk_todo none ()).2.1
      (by decide) (by decide)).2⟩

/-- What a blocked commit attempt must not touch: the collection, the
filtered view and the screen, with an immediate error message shown. -/
def commit_blocked (a b : App) : Prop :=
  b.todos = a.todos ∧ b.filtered_todos = a.filtered_todos ∧
  b.current_screen = a.current_screen ∧ b.error_message.isSome = true

theorem to_create_request_error_of_parse {f : InputForm} {m : String}
    (h : f.parse_due_date = Except.error m) :
    f.to_create_request = Except.error m := by
  unfold InputForm.to_create_request
  rw [h]

/-- C7: a create or update commit with an empty trimmed title, or with a
malformed due-date buffer, never consults the remote collaborator — the
result does not depend on the remote response — and it leaves the
collection, the filtered view and the screen unchanged while setting an
immediate error message. -/
theorem validation_blocks_dispatch (a : App) (i : Nat) (t : Todo)
    (msg : String) :
    (a.input_form.is_valid = false →
      (∀ r1 r2 : Except Unit Todo,
        App.create_todo r1 a = App.create_todo r2 a) ∧
      (∀ r : Except Unit Todo, commit_blocked a (App.create_todo r a)) ∧
      (∀ r1 r2 : Except Unit Todo,
        App.update_selected_todo r1 a = App.update_selected_todo r2 a) ∧
      (∀ r : Except Unit Todo,
        commit_blocked a (App.update_selected_todo r a))) ∧
    (a.input_form.is_valid = true →
      a.input_form.parse_due_date = Except.error msg →
      (∀ r1 r2 : Except Unit Todo,
        App.create_todo r1 a = App.create_todo r2 a) ∧
      (∀ r : Except Unit Todo, commit_blocked a (App.create_todo r a)) ∧
      (a.selected_todo = some i → a.filtered_todos[i]? = some t →
        (∀ r1 r2 : Except Unit Todo,
          App.update_selected_todo r1 a = App.update_selected_todo r2 a) ∧
        (∀ r : Except Unit Todo,
          commit_blocked a (App.update_selected_todo r a)))) := by
  constructor
  · intro hv
    refine ⟨?_, ?_, ?_, ?_⟩
    · intro r1 r2
      simp [App.create_todo, hv]
    · intro r
      unfold commit_blocked
      simp [App.create_todo, hv, App.show_error]
    · intro r1 r2
      simp [App.update_selected_todo, hv]
    · intro r
      unfold commit_blocked
      simp [App.update_selected_todo, hv, App.show_error]
  · intro hv hbad
    have hreq := to_create_request_error_of_parse hbad
    refine ⟨?_, ?_, ?_⟩
    · intro r1 r2
      simp [App.create_todo, hv, hreq, App.clear_messages]
    · intro r
      unfold commit_blocked
      simp [App.create_todo, hv, hreq, App.clear_messages, App.show_error]
    · intro hsel hget
      constructor
      · intro r1 r2
        simp [App.update_selected_todo, hv, hsel, hget, hbad,
          App.clear_messages]
      · intro r
        unfold commit_blocked
        simp [App.update_selected_todo, hv, hsel, hget, hbad,
          App.clear_messages, App.show_error]

/-- A state editing a selected todo whose form has a valid title but a
malformed due-date buffer. -/
def baddate_app : App :=
  { init_app with
    todos := [milk_todo]
    filtered_todos := [milk_todo]
    selected_todo := some 0
    list_state := some 0
    input_form := { InputForm.new with title := "x", due_date := "9999" } }

/-- A state on the add screen with no selection, a valid title and a
malformed due-date buffer: a reachable blocked create. -/
def baddate_noselect_app : App :=
  { init_app with
    input_form := { InputForm.new with title := "x", due_date := "9999" } }

/-- Witness for C7: the initial (empty-title) form blocks create; the
malformed due date blocks create with no selection at all; and the
malformed due date blocks update on a selected todo — all without
touching the lists. -/
theorem validation_blocks_dispatch_witness :
    init_app.input_form.is_valid = false ∧
    commit_blocked init_app (App.create_todo (Except.ok milk_todo) init_app) ∧
    baddate_noselect_app.selected_todo = none ∧
    baddate_noselect_app.input_form.is_valid = true ∧
    baddate_noselect_app.input_form.parse_due_date = Except.error
      "Invalid date format. Use YYYY-MM-DD or YYYY-MM-DD HH:MM:SS" ∧
    commit_blocked baddate_noselect_app
      (App.create_todo (Except.ok milk_todo) baddate_noselect_app) ∧
    baddate_app.input_form.is_valid = true ∧
    baddate_app.input_form.parse_due_date = Except.error
      "Invalid date format. Use YYYY-MM-DD or YYYY-MM-DD HH:MM:SS" ∧
    commit_blocked baddate_app
      (App.update_selected_todo (Except.ok milk_done) baddate_app) :=
  ⟨by decide,
   ((validation_blocks_dispatch init_app 0 milk_todo "").1
      (by decide)).2.1 (Except.ok milk_todo),
   by decide,
   by decide,
   by decide,
   ((validation_blocks_dispatch baddate_noselect_app 0 milk_todo
       "Invalid date format. Use YYYY-MM-DD or YYYY-MM-DD HH:MM:SS").2
      (by decide) (by decide)).2.1 (Except.ok milk_todo),
   by decide,
   by decide,
   ((((validation_blocks_dispatch baddate_app 0 milk_todo
       "Invalid date format. Use YYYY-MM-DD or YYYY-MM-DD HH:MM:SS").2
      (by decide) (by decide)).2.2 (by decide) (by decide)).2)
     (Except.ok milk_done)⟩

theorem char_eq_of_toNat_eq {c d : Char} (h : c.toNat = d.toNat) : c = d :=
  Char.eq_of_val_eq (UInt32.ext h)

/-- A character whose decimal digit value lies in 1..3 is the character
1, 2 or 3. -/
theorem charToDigit_in_1_3 {c : Char} {d : Nat}
    (h : InputForm.charToDigit c = some d) (h1 : 1 ≤ d) (h3 : d ≤ 3) :
    c = '1' ∨ c = '2' ∨ c = '3' := by
  unfold InputForm.charToDigit at h
  by_cases hd : c.isDigit
  · rw [if_pos hd] at h
    have hdv : digitVal c = d := Option.some.inj h
    have hb : 48 ≤ c.toNat ∧ c.toNat ≤ 57 := by
      unfold Char.isDigit at hd
      simp at hd
      unfold Char.toNat
      exact hd
    unfold digitVal at hdv
    have h49 : c.toNat = 49 ∨ c.toNat = 50 ∨ c.toNat = 51 := by omega
    rcases h49 with h49 | h50 | h51
    · exact Or.inl (char_eq_of_toNat_eq (by rw [h49]; decide))
    · exact Or.inr (Or.inl (char_eq_of_toNat_eq (by rw [h50]; decide)))
    · exact Or.inr (Or.inr (char_eq_of_toNat_eq (by rw [h51]; decide)))
  · rw [if_neg hd] at h
    exact absurd h (by simp)

/-- On the priority field, digits 1..3 set the value directly, every
other character is silently ignored, and backspace is a no-op. -/
theorem priority_field_char_rules (g : InputForm)
    (hg : g.current_field = InputField.Priority) :
    (g.handle_char '1').priority = 1 ∧
    (g.handle_char '2').priority = 2 ∧
    (g.handle_char '3').priority = 3 ∧
    (∀ c : Char, ¬(c = '1' ∨ c = '2' ∨ c = '3') → g.handle_char c = g) ∧
    g.handle_backspace = g := by
  refine ⟨?_, ?_, ?_, ?_, ?_⟩
  · have h1 : InputForm.charToDigit '1' = some 1 := rfl
    simp [InputForm.handle_char, hg, h1]
  · have h2 : InputForm.charToDigit '2' = some 2 := rfl
    simp [InputForm.handle_char, hg, h2]
  · have h3 : InputForm.charToDigit '3' = some 3 := rfl
    simp [InputForm.handle_char, hg, h3]
  · intro c hc
    cases hcd : InputForm.charToDigit c with
    | none => simp [InputForm.handle_char, hg, hcd]
    | some d =>
        by_cases hd : 1 ≤ d ∧ d ≤ 3
        · exact absurd (charToDigit_in_1_3 hcd hd.1 hd.2) hc
        · simp [InputForm.handle_char, hg, hcd, hd]
  · simp [InputForm.handle_backspace, hg]

/-- Forms reachable by creation, clearing, character input, backspace,
field cycling, and pre-population from a selected todo (whose priority,
per the Todo data model, is an ordinal in 1..3; the due-date string is
whatever the local-time formatter rendered). -/
inductive FormReachable : InputForm → Prop
  | new : FormReachable InputForm.new
  | clearStep {f : InputForm} : FormReachable f → FormReachable f.clear
  | charStep (c : Char) {f : InputForm} :
      FormReachable f → FormReachable (f.handle_char c)
  | backspaceStep {f : InputForm} :
      FormReachable f → FormReachable f.handle_backspace
  | fieldNext {f : InputForm} : FormReachable f → FormReachable f.next_field
  | fieldPrev {f : InputForm} :
      FormReachable f → FormReachable f.previous_field
  | populate (t : Todo) (s : String)
      (hp : 1 ≤ t.priority ∧ t.priority ≤ 3) {f : InputForm} :
      FormReachable f →
      FormReachable
        { f with
          title := t.title
          description := t.description.getD ""
          priority := t.priority
          due_date := s }

/-- C8: the form's stored priority is always 1, 2 or 3 in every
reachable form state, and on the priority field digits 1..3 set the
value directly, all other characters are silently rejected, and
backspace is ignored. -/
theorem form_priority_invariant (f : InputForm) (h : FormReachable f) :
    (f.priority = 1 ∨ f.priority = 2 ∨ f.priority = 3) ∧
    (∀ g : InputForm, g.current_field = InputField.Priority →
      (g.handle_char '1').priority = 1 ∧
      (g.handle_char '2').priority = 2 ∧
      (g.handle_char '3').priority = 3 ∧
      (∀ c : Char, ¬(c = '1' ∨ c = '2' ∨ c = '3') → g.handle_char c = g) ∧
      g.handle_backspace = g) := by
  refine ⟨?_, fun g hg => priority_field_char_rules g hg⟩
  induction h with
  | new => simp [InputForm.new]
  | clearStep _ _ => simp [InputForm.clear]
  | charStep c _ ih =>
      rename_i f0 _
      cases hcf : f0.current_field with
      | Title => simpa [InputForm.handle_char, hcf] using ih
      | Description => simpa [InputForm.handle_char, hcf] using ih
      | DueDate =>
          simp only [InputForm.handle_char, hcf]
          split
          · simpa using ih
          · simpa using ih
      | Priority =>
          cases hcd : InputForm.charToDigit c with
          | none => simpa [InputForm.handle_char, hcf, hcd] using ih
          | some d =>
              by_cases hd : 1 ≤ d ∧ d ≤ 3
              · simp [InputForm.handle_char, hcf, hcd, hd]
                omega
              · simpa [InputForm.handle_char, hcf, hcd, hd] using ih
  | backspaceStep _ ih =>
      rename_i f0 _
      cases hcf : f0.current_field <;>
        simpa [InputForm.handle_backspace, hcf] using ih
  | fieldNext _ ih => simpa [InputForm.next_field] using ih
  | fieldPrev _ ih => simpa [InputForm.previous_field] using ih
  | populate t s hp _ _ => simp; omega

/-- Witness for C8: the fresh form has priority 2, and on the priority
field the digit 5 is rejected. -/
theorem form_priority_invariant_witness :
    (InputForm.new.priority = 1 ∨ InputForm.new.priority = 2 ∨
      InputForm.new.priority = 3) ∧
    InputForm.new.next_field.next_field.handle_char '5' =
      InputForm.new.next_field.next_field :=
  ⟨(form_priority_invariant InputForm.new FormReachable.new).1,
   ((form_priority_invariant InputForm.new FormReachable.new).2
      InputForm.new.next_field.next_field (by decide)).2.2.2.1 '5'
     (by decide)⟩

